import Mathlib

/-!
Verification development for the rustares language front end
(scanner, recursive-descent parser, homogeneous syntax tree).

The embedding follows the Rust sources:
  src/token/mod.rs          (TokenType, Value, Token)
  src/intermediate/mod.rs   (Node)
  src/scanner/scanner.rs    (Scanner)
  src/parser/mod.rs         (Parser)

Conventions of the embedding:
  * the source buffer is a `List Char` (the scanner indexes the program as a
    flat array of single-byte characters; we model characters directly);
  * `panic!` aborts are modelled as `Except.error (Err.fatal msg)` carrying
    the formatted diagnostic text; a Rust out-of-bounds slice/index panic is
    `Err.bounds`;
  * every loop of the Rust code is a fuel-indexed recursive function; fuel
    is always more than the number of remaining characters/tokens, so the
    distinguished `Err.fuel` outcome never occurs on the concrete runs
    below (they are evaluated by the kernel);
  * the external `Module` collaborator is modelled by its one observable
    field, the file name used in diagnostics.
-/

/-- TokenType from src/token/mod.rs, constructors in source order.
`switch`, `case` and `default` appear in the scanner's reserved-word table
but have no TokenType constructor in src/token/mod.rs; the enumeration here
is exactly the one of the source file. -/
inductive TokenType where
  | STRING
  | INTEGER
  | FLOAT
  | TRUE
  | FALSE
  | NIL
  | IDENT
  | DEF
  | IF
  | ELIF
  | ELSE
  | FOR
  | WHILE
  | UNTIL
  | IN
  | IMPORT
  | DEBUG
  | RETURN
  | LOGICAL_OR
  | LOGICAL_AND
  | EQL
  | NOT_EQL
  | LT
  | LE
  | GT
  | GE
  | BITWISE_OR
  | BITWISE_XOR
  | BITWISE_AND
  | LEFT_SHIFT
  | RIGHT_SHIFT
  | DOT
  | DOTDOT
  | PLUS
  | MINUS
  | MUL
  | DIV
  | MODULO
  | BANG
  | COMPL
  | LPAREN
  | RPAREN
  | LBRACK
  | RBRACK
  | LBRACE
  | RBRACE
  | COMMA
  | SEMICOLON
  | ASSIGN_ARROW
  | NEWLINE
  | ASSIGN
  | BITWISE_OR_ASSIGN
  | BITWISE_XOR_ASSIGN
  | BITWISE_AND_ASSIGN
  | LEFT_SHIFT_ASSIGN
  | RIGHT_SHIFT_ASSIGN
  | PLUS_ASSIGN
  | MINUS_ASSIGN
  | MUL_ASSIGN
  | DIV_ASSIGN
  | MODULO_ASSIGN
  | BLOCK
  | SUB_DECL
  | SUB_LITERAL
  | SUB_PARAMS
  | ARRAY_DECL
  | HASH_DECL
  | HASH_ELEM
  | CALL
  | SUBSCRIPT
  | NEGATE
  | EOF
deriving DecidableEq, Repr

/-- The discriminant of a TokenType (`$type as i32` in the Rust macro
`is_between!`): the declaration ordinal. -/
def TokenType.ord : TokenType → Nat
  | .STRING => 0
  | .INTEGER => 1
  | .FLOAT => 2
  | .TRUE => 3
  | .FALSE => 4
  | .NIL => 5
  | .IDENT => 6
  | .DEF => 7
  | .IF => 8
  | .ELIF => 9
  | .ELSE => 10
  | .FOR => 11
  | .WHILE => 12
  | .UNTIL => 13
  | .IN => 14
  | .IMPORT => 15
  | .DEBUG => 16
  | .RETURN => 17
  | .LOGICAL_OR => 18
  | .LOGICAL_AND => 19
  | .EQL => 20
  | .NOT_EQL => 21
  | .LT => 22
  | .LE => 23
  | .GT => 24
  | .GE => 25
  | .BITWISE_OR => 26
  | .BITWISE_XOR => 27
  | .BITWISE_AND => 28
  | .LEFT_SHIFT => 29
  | .RIGHT_SHIFT => 30
  | .DOT => 31
  | .DOTDOT => 32
  | .PLUS => 33
  | .MINUS => 34
  | .MUL => 35
  | .DIV => 36
  | .MODULO => 37
  | .BANG => 38
  | .COMPL => 39
  | .LPAREN => 40
  | .RPAREN => 41
  | .LBRACK => 42
  | .RBRACK => 43
  | .LBRACE => 44
  | .RBRACE => 45
  | .COMMA => 46
  | .SEMICOLON => 47
  | .ASSIGN_ARROW => 48
  | .NEWLINE => 49
  | .ASSIGN => 50
  | .BITWISE_OR_ASSIGN => 51
  | .BITWISE_XOR_ASSIGN => 52
  | .BITWISE_AND_ASSIGN => 53
  | .LEFT_SHIFT_ASSIGN => 54
  | .RIGHT_SHIFT_ASSIGN => 55
  | .PLUS_ASSIGN => 56
  | .MINUS_ASSIGN => 57
  | .MUL_ASSIGN => 58
  | .DIV_ASSIGN => 59
  | .MODULO_ASSIGN => 60
  | .BLOCK => 61
  | .SUB_DECL => 62
  | .SUB_LITERAL => 63
  | .SUB_PARAMS => 64
  | .ARRAY_DECL => 65
  | .HASH_DECL => 66
  | .HASH_ELEM => 67
  | .CALL => 68
  | .SUBSCRIPT => 69
  | .NEGATE => 70
  | .EOF => 71

/-- The `is_between!` macro of src/token/mod.rs: ordinal range membership. -/
def is_between (t lo hi : TokenType) : Bool :=
  lo.ord ≤ t.ord && t.ord ≤ hi.ord

/-- Value from src/token/mod.rs.  `FloatValue` keeps the literal text: no
claim depends on the numeric reading of a float literal, and binary
floating point is outside the shallow embedding. -/
inductive Value where
  | StringValue : String → Value
  | IntegerValue : Int → Value
  | FloatValue : String → Value
  | BoolValue : Bool → Value
deriving DecidableEq, Repr

/-- Token from src/token/mod.rs. -/
structure Token where
  text : String
  token_type : TokenType
  value : Value
  line_num : Int
  line_pos : Int
deriving DecidableEq, Repr

/-- Token::new. -/
def Token.new (line_num line_pos : Int) : Token :=
  { text := "", token_type := .STRING, value := .IntegerValue 0,
    line_num := line_num, line_pos := line_pos }

/-- Token::new_imag. -/
def Token.new_imag (text : String) (token_type : TokenType)
    (line_num line_pos : Int) : Token :=
  { text := text, token_type := token_type, value := .IntegerValue 0,
    line_num := line_num, line_pos := line_pos }

/-- Token::string. -/
def Token.string (t : Token) : String := t.text

/-- Node from src/intermediate/mod.rs: homogeneous tree. -/
inductive Node where
  | mk : Token → List Node → Node

/-- Node field accessor. -/
def Node.token : Node → Token
  | .mk t _ => t

/-- Node field accessor. -/
def Node.children : Node → List Node
  | .mk _ cs => cs

/-- Node::new. -/
def Node.new (token : Token) : Node := .mk token []

/-- Node::add_child. -/
def Node.add_child : Node → Node → Node
  | .mk t cs, c => .mk t (cs ++ [c])

/-- Node::get_root: re-root `self` under `node` (the new root gains `self`
as a further child). -/
def Node.get_root (self node : Node) : Node := node.add_child self

/-- Node::string. -/
def Node.string (n : Node) : String := n.token.text

/-- Node::get_type. -/
def Node.get_type (n : Node) : TokenType := n.token.token_type

/-- Node::get_value. -/
def Node.get_value (n : Node) : Value := n.token.value

/-- Node::to_string_tree, fuel-indexed on tree depth so that it reduces in
the kernel (the depth of every concrete tree below is far under the fuel
given by `Node.to_string_tree`). -/
def Node.tree_string_step (rec : Node → String) (n : Node) : String :=
  if n.children.length ≠ 0 then
    "(" ++ n.string ++ " " ++
      String.intercalate " " (n.children.map rec) ++ ")"
  else
    n.string

/-- The depth recursion of Node::to_string_tree (explicit `Nat.rec` so that
the kernel unfolds one step per fuel unit). -/
def Node.tree_string (fuel : Nat) : Node → String :=
  Nat.rec (motive := fun _ => Node → String)
    (fun _ => "?") (fun _ ih => Node.tree_string_step ih) fuel

/-- Node::to_string_tree at ample depth fuel. -/
def Node.to_string_tree (n : Node) : String := Node.tree_string 64 n

/-- Failure outcomes: `fatal` is a `panic!` carrying the formatted message,
`bounds` a Rust index/slice out-of-bounds panic, `fuel` the artificial
out-of-fuel outcome of the embedding. -/
inductive Err where
  | fatal : String → Err
  | bounds : Err
  | fuel : Err
deriving DecidableEq, Repr

/-- Scanner state (src/scanner/scanner.rs).  `input` is the source buffer
(`program` and `input` of the Rust struct are the same bytes); `filename`
is the owning module's display name used in diagnostics. -/
structure ScanState where
  filename : String
  input : List Char
  line_num : Int
  line_pos : Int
  position : Nat
  ch : Char
deriving DecidableEq, Repr

/-- EOF_CHAR. -/
def eof_char : Char := '\x00'

/-- Scanner::new followed by the constructor's initial next_char: position
starts at -1 and the first next_char moves it to 0, loading the first
character (or EOF for the empty buffer). -/
def Scanner.new (filename : String) (input : List Char) : ScanState :=
  if h : 0 < input.length then
    { filename := filename, input := input,
      line_num := if input.get ⟨0, h⟩ = '\n' then 2 else 1,
      line_pos := 1, position := 0, ch := input.get ⟨0, h⟩ }
  else
    { filename := filename, input := input,
      line_num := 1, line_pos := 0, position := 0, ch := eof_char }

/-- Scanner::error's panic message: `<module>:<line>:<pos>: <message>`. -/
def Scanner.error_message (s : ScanState) (line_num line_pos : Int)
    (message : String) : String :=
  s.filename ++ ":" ++ toString line_num ++ ":" ++ toString line_pos ++
    ": " ++ message

/-- Scanner::error as an Except outcome. -/
def Scanner.fail (s : ScanState) (line_num line_pos : Int)
    (message : String) : Except Err (Token × ScanState) :=
  .error (.fatal (Scanner.error_message s line_num line_pos message))

/-- Scanner::next_char.  Reaching exactly the buffer length yields EOF and
leaves the counters alone; moving past it is the out-of-bounds panic of
Scanner::get_char. -/
def Scanner.next_char (s : ScanState) : Except Err ScanState :=
  let p := s.position + 1
  if h : p < s.input.length then
    let c := s.input.get ⟨p, h⟩
    let ln := if c = '\n' then s.line_num + 1 else s.line_num
    .ok { s with position := p, ch := c, line_num := ln, line_pos := s.line_pos + 1 }
  else if p = s.input.length then
    .ok { s with position := p, ch := eof_char }
  else
    .error .bounds

/-- Scanner::peek_char. -/
def Scanner.peek_char (s : ScanState) (num : Nat) : Char :=
  if h : s.position + num < s.input.length then
    s.input.get ⟨s.position + num, h⟩
  else
    eof_char

/-- Scanner::next_charx. -/
def Scanner.next_charx : Nat → ScanState → Except Err ScanState
  | 0, s => .ok s
  | n+1, s => do Scanner.next_charx n (← Scanner.next_char s)

/-- Scanner::is_letter. -/
def Scanner.is_letter (s : ScanState) : Bool :=
  ('a' ≤ s.ch && s.ch ≤ 'z') || ('A' ≤ s.ch && s.ch ≤ 'Z') || s.ch = '_'

/-- Scanner::is_digit. -/
def Scanner.is_digit (s : ScanState) : Bool :=
  '0' ≤ s.ch && s.ch ≤ '9'

/-- Scanner::is_hex.  Faithful to the source's operator precedence:
`ch == '0' && next == 'x' || next == 'X'` groups as
`(ch == '0' && next == 'x') || next == 'X'`. -/
def Scanner.is_hex (s : ScanState) : Bool :=
  (s.ch = '0' && Scanner.peek_char s 1 = 'x') || Scanner.peek_char s 1 = 'X'

/-- Scanner::read_hexdigit: digit value, or -1 for a non-hex character. -/
def Scanner.read_hexdigit (s : ScanState) : Int :=
  if '0' ≤ s.ch && s.ch ≤ '9' then (s.ch.toNat : Int) - ('0' : Char).toNat
  else if 'a' ≤ s.ch && s.ch ≤ 'f' then (s.ch.toNat : Int) - ('a' : Char).toNat + 10
  else if 'A' ≤ s.ch && s.ch ≤ 'F' then (s.ch.toNat : Int) - ('A' : Char).toNat + 10
  else -1

/-- Scanner::is_long_comment. -/
def Scanner.is_long_comment (s : ScanState) : Bool :=
  s.ch = '=' && Scanner.peek_char s 1 = '=' && Scanner.peek_char s 2 = '='

/-- Fuel that dominates the number of characters any scanner loop can still
consume. -/
def Scanner.fuel (s : ScanState) : Nat := s.input.length + 2

/-- The inner `#`-comment loop of Scanner::whitespace: skip to newline or
EOF. -/
def Scanner.skip_line_comment_step (rec : ScanState → Except Err ScanState)
    (s : ScanState) : Except Err ScanState :=
  if s.ch ≠ '\n' && s.ch ≠ eof_char then do
    rec (← Scanner.next_char s)
  else
    .ok s

/-- Fuel recursion for the line-comment loop. -/
def Scanner.skip_line_comment (fuel : Nat) : ScanState → Except Err ScanState :=
  Nat.rec (motive := fun _ => ScanState → Except Err ScanState)
    (fun _ => .error .fuel) (fun _ ih => Scanner.skip_line_comment_step ih) fuel

/-- Scanner::whitespace: skip spaces, carriage returns, tabs and `#` line
comments. -/
def Scanner.whitespace_step (rec : ScanState → Except Err ScanState)
    (s : ScanState) : Except Err ScanState :=
  if s.ch = ' ' || s.ch = '\r' || s.ch = '\t' || s.ch = '#' then
    if s.ch = '#' then do
      rec (← Scanner.skip_line_comment (Scanner.fuel s) s)
    else do
      rec (← Scanner.next_char s)
  else
    .ok s

/-- Fuel recursion for Scanner::whitespace. -/
def Scanner.whitespace (fuel : Nat) : ScanState → Except Err ScanState :=
  Nat.rec (motive := fun _ => ScanState → Except Err ScanState)
    (fun _ => .error .fuel) (fun _ ih => Scanner.whitespace_step ih) fuel

/-- The scan-ahead loop of Scanner::long_comment: advance until EOF or a
`===` fence. -/
def Scanner.long_comment_scan_step (rec : ScanState → Except Err ScanState)
    (s : ScanState) : Except Err ScanState :=
  if s.ch ≠ eof_char &&
     !(s.ch = '=' && Scanner.peek_char s 1 = '=' && Scanner.peek_char s 2 = '=') then do
    rec (← Scanner.next_char s)
  else
    .ok s

/-- Fuel recursion for the long-comment scan-ahead loop. -/
def Scanner.long_comment_scan (fuel : Nat) : ScanState → Except Err ScanState :=
  Nat.rec (motive := fun _ => ScanState → Except Err ScanState)
    (fun _ => .error .fuel) (fun _ ih => Scanner.long_comment_scan_step ih) fuel

/-- Scanner::long_comment. -/
def Scanner.long_comment (s : ScanState) : Except Err ScanState := do
  let s ← Scanner.next_charx 3 s
  let s ← Scanner.long_comment_scan (Scanner.fuel s) s
  if s.ch = eof_char then
    .error (.fatal (Scanner.error_message s s.line_num s.line_pos
      "unterminated long comment"))
  else
    Scanner.next_charx 3 s

/-- The reserved-word table of Scanner::new.  The entries `switch`, `case`
and `default` of the Rust table name token kinds that do not exist in
src/token/mod.rs and are omitted. -/
def reserved_words (w : String) : Option TokenType :=
  if w = "def" then some .DEF
  else if w = "if" then some .IF
  else if w = "elif" then some .ELIF
  else if w = "else" then some .ELSE
  else if w = "for" then some .FOR
  else if w = "while" then some .WHILE
  else if w = "until" then some .UNTIL
  else if w = "in" then some .IN
  else if w = "import" then some .IMPORT
  else if w = "true" then some .TRUE
  else if w = "false" then some .FALSE
  else if w = "nil" then some .NIL
  else if w = "debug" then some .DEBUG
  else if w = "return" then some .RETURN
  else none

/-- The `get_literal!` macro: program[s..e] as text. -/
def get_literal (input : List Char) (s e : Nat) : String :=
  String.mk ((input.drop s).take (e - s))

/-- The letter-consuming loop of Scanner::word_token. -/
def Scanner.consume_letters_step (rec : ScanState → Except Err ScanState)
    (s : ScanState) : Except Err ScanState :=
  if Scanner.is_letter s then do
    rec (← Scanner.next_char s)
  else
    .ok s

/-- Fuel recursion for the word-consuming loop. -/
def Scanner.consume_letters (fuel : Nat) : ScanState → Except Err ScanState :=
  Nat.rec (motive := fun _ => ScanState → Except Err ScanState)
    (fun _ => .error .fuel) (fun _ ih => Scanner.consume_letters_step ih) fuel

/-- Scanner::word_token. -/
def Scanner.word_token (tok : Token) (s : ScanState) :
    Except Err (Token × ScanState) := do
  let position := s.position
  let s ← Scanner.consume_letters (Scanner.fuel s) s
  let text := get_literal s.input position s.position
  match reserved_words text with
  | some word =>
    let value :=
      match word with
      | .TRUE => Value.BoolValue true
      | .FALSE => Value.BoolValue false
      | _ => tok.value
    .ok ({ tok with text := text, token_type := word, value := value }, s)
  | none =>
    .ok ({ tok with text := text, token_type := .IDENT }, s)

/-- The digit-consuming loop of Scanner::number_token. -/
def Scanner.consume_digits_step (rec : ScanState → Except Err ScanState)
    (s : ScanState) : Except Err ScanState :=
  if Scanner.is_digit s then do
    rec (← Scanner.next_char s)
  else
    .ok s

/-- Fuel recursion for the digit-consuming loop. -/
def Scanner.consume_digits (fuel : Nat) : ScanState → Except Err ScanState :=
  Nat.rec (motive := fun _ => ScanState → Except Err ScanState)
    (fun _ => .error .fuel) (fun _ ih => Scanner.consume_digits_step ih) fuel

/-- Value of one radix digit, `none` for an invalid character.  Used to
model `i64::from_str_radix`. -/
def radix_digit (radix : Nat) (c : Char) : Option Nat :=
  let v :=
    if '0' ≤ c && c ≤ '9' then some (c.toNat - ('0' : Char).toNat)
    else if 'a' ≤ c && c ≤ 'z' then some (c.toNat - ('a' : Char).toNat + 10)
    else if 'A' ≤ c && c ≤ 'Z' then some (c.toNat - ('A' : Char).toNat + 10)
    else none
  match v with
  | some d => if d < radix then some d else none
  | none => none

/-- Digit-string value in the given radix, `none` on an empty string or an
invalid digit, as `i64::from_str_radix` on an unsigned literal (the
lexemes scanned here never carry a sign). -/
def from_str_radix (radix : Nat) : List Char → Option Nat
  | [] => none
  | [c] => radix_digit radix c
  | c :: cs => do
    let d ← radix_digit radix c
    let rest ← from_str_radix radix cs
    some (d * radix ^ cs.length + rest)

/-- i64::MAX, the overflow bound of the radix conversions. -/
def i64_max : Nat := 9223372036854775807

/-- Scanner::number_token: decimal integer or float literal. -/
def Scanner.number_token (tok : Token) (s : ScanState) :
    Except Err (Token × ScanState) := do
  let tok := { tok with token_type := .INTEGER }
  let position := s.position
  let s ← Scanner.consume_digits (Scanner.fuel s) s
  let fraction : Except Err (Token × ScanState) :=
    if s.ch = '.' && Scanner.peek_char s 1 ≠ '.' then do
      let s ← Scanner.next_char s
      let s ← Scanner.consume_digits (Scanner.fuel s) s
      pure ({ tok with token_type := .FLOAT }, s)
    else
      pure (tok, s)
  let (tok, s) ← fraction
  let text := get_literal s.input position s.position
  let tok := { tok with text := text }
  if tok.token_type = .INTEGER then
    match from_str_radix 10 text.data with
    | some v =>
      if v ≤ i64_max then
        .ok ({ tok with value := .IntegerValue (v : Int) }, s)
      else
        Scanner.fail s tok.line_num tok.line_pos "number literal was too large"
    | none =>
      Scanner.fail s tok.line_num tok.line_pos "number literal was too large"
  else
    .ok ({ tok with value := .FloatValue text }, s)

/-- The consuming loop of Scanner::number_token_hex, faithful to the source:
`while self.read_hexdigit() != 1` keeps consuming until the current
character is a hex digit of value exactly 1 (`!= 1`, not `!= -1`). -/
def Scanner.consume_hex_step (rec : ScanState → Except Err ScanState)
    (s : ScanState) : Except Err ScanState :=
  if Scanner.read_hexdigit s ≠ 1 then do
    rec (← Scanner.next_char s)
  else
    .ok s

/-- Fuel recursion for the hex-consuming loop. -/
def Scanner.consume_hex (fuel : Nat) : ScanState → Except Err ScanState :=
  Nat.rec (motive := fun _ => ScanState → Except Err ScanState)
    (fun _ => .error .fuel) (fun _ ih => Scanner.consume_hex_step ih) fuel

/-- Scanner::number_token_hex. -/
def Scanner.number_token_hex (tok : Token) (s : ScanState) :
    Except Err (Token × ScanState) := do
  let position := s.position
  let s ← Scanner.next_charx 2 s
  let s ← Scanner.consume_hex (Scanner.fuel s) s
  let text := get_literal s.input position s.position
  let tok := { tok with text := text, token_type := .INTEGER }
  match from_str_radix 16 (text.data.drop 2) with
  | some v =>
    if v ≤ i64_max then
      .ok ({ tok with value := .IntegerValue (v : Int) }, s)
    else
      Scanner.fail s tok.line_num tok.line_pos "number literal was too large"
  | none =>
    Scanner.fail s tok.line_num tok.line_pos "number literal was too large"

/-- Scanner::read_hex_escape: exactly two hex digits after `\x`. -/
def Scanner.read_hex_escape (delimit : Char) (s : ScanState) :
    Except Err (Char × ScanState) := do
  let step : ScanState → Int → Except Err (Int × ScanState) := fun s value => do
    let s ← Scanner.next_char s
    if s.ch = delimit || s.ch = eof_char then
      .error (.fatal (Scanner.error_message s s.line_num s.line_pos
        "incomplete hex escape sequence"))
    else
      let digit := Scanner.read_hexdigit s
      if digit = -1 then
        .error (.fatal (Scanner.error_message s s.line_num s.line_pos
          "incomplete hex escape sequence"))
      else
        .ok (value * 16 + digit, s)
  let (value, s) ← step s 0
  let (value, s) ← step s value
  .ok (Char.ofNat value.toNat, s)

/-- The character-consuming loop of Scanner::string_token, accumulating the
decoded buffer. -/
def Scanner.string_scan_step
    (rec : Char → String → ScanState → Except Err (String × ScanState))
    (delimit : Char) (buf : String) (s : ScanState) :
    Except Err (String × ScanState) :=
  if s.ch ≠ delimit && s.ch ≠ eof_char then
    if s.ch = '\\' then do
      let s ← Scanner.next_char s
      let (buf, s) ←
        if s.ch = '"' then pure (buf.push '"', s)
        else if s.ch = '\\' then pure (buf.push '\\', s)
        else if s.ch = '\'' then pure (buf.push '\'', s)
        else if s.ch = 'n' then pure (buf.push '\n', s)
        else if s.ch = 'r' then pure (buf.push '\r', s)
        else if s.ch = 't' then pure (buf.push '\t', s)
        else if s.ch = 'x' then do
          let (c, s) ← Scanner.read_hex_escape delimit s
          pure (buf.push c, s)
        else
          .error (.fatal (Scanner.error_message s s.line_num s.line_pos
            ("invalid escape character " ++ String.mk [s.ch])))
      let s ← Scanner.next_char s
      rec delimit buf s
    else do
      let buf := buf.push s.ch
      let s ← Scanner.next_char s
      rec delimit buf s
  else
    .ok (buf, s)

/-- Fuel recursion for the string-consuming loop. -/
def Scanner.string_scan (fuel : Nat) :
    Char → String → ScanState → Except Err (String × ScanState) :=
  Nat.rec (motive := fun _ => Char → String → ScanState → Except Err (String × ScanState))
    (fun _ _ _ => .error .fuel) (fun _ ih => Scanner.string_scan_step ih) fuel

/-- Scanner::string_token.  The token's text is the decoded buffer: escapes
expanded, the delimiters not included. -/
def Scanner.string_token (tok : Token) (s : ScanState) :
    Except Err (Token × ScanState) := do
  let delimit := s.ch
  let s ← Scanner.next_char s
  let (buf, s) ← Scanner.string_scan (Scanner.fuel s) delimit "" s
  if s.ch = eof_char then
    .error (.fatal (Scanner.error_message s s.line_num s.line_pos
      "unterminated string literal"))
  else do
    let s ← Scanner.next_char s
    .ok ({ tok with text := buf, token_type := .STRING, value := .StringValue buf }, s)

/-- The symbol/operator branch of Scanner::next_token: greedy longest-match
against the lookahead, then one final advance.  The initial
`token.text.push(self.ch)` of the source precedes the match. -/
def Scanner.symbol_token (tok : Token) (s : ScanState) :
    Except Err (Token × ScanState) := do
  let tok := { tok with text := tok.text.push s.ch }
  let selected : Except Err (Token × ScanState) :=
    if s.ch = '|' then
      if Scanner.peek_char s 1 = '|' then do
        let s ← Scanner.next_char s
        pure ({ tok with text := tok.text.push s.ch, token_type := .LOGICAL_OR }, s)
      else if Scanner.peek_char s 1 = '=' then do
        let s ← Scanner.next_char s
        pure ({ tok with text := tok.text.push s.ch, token_type := .BITWISE_OR_ASSIGN }, s)
      else
        pure ({ tok with token_type := .BITWISE_OR }, s)
    else if s.ch = '&' then
      if Scanner.peek_char s 1 = '&' then do
        let s ← Scanner.next_char s
        pure ({ tok with text := tok.text.push s.ch, token_type := .LOGICAL_AND }, s)
      else if Scanner.peek_char s 1 = '=' then do
        let s ← Scanner.next_char s
        pure ({ tok with text := tok.text.push s.ch, token_type := .BITWISE_AND_ASSIGN }, s)
      else
        pure ({ tok with token_type := .BITWISE_AND }, s)
    else if s.ch = '=' then
      if Scanner.peek_char s 1 = '=' then do
        let s ← Scanner.next_char s
        pure ({ tok with text := tok.text.push s.ch, token_type := .EQL }, s)
      else if Scanner.peek_char s 1 = '>' then do
        let s ← Scanner.next_char s
        pure ({ tok with text := tok.text.push s.ch, token_type := .ASSIGN_ARROW }, s)
      else
        pure ({ tok with token_type := .ASSIGN }, s)
    else if s.ch = '!' then
      if Scanner.peek_char s 1 = '=' then do
        let s ← Scanner.next_char s
        pure ({ tok with text := tok.text.push s.ch, token_type := .NOT_EQL }, s)
      else
        pure ({ tok with token_type := .BANG }, s)
    else if s.ch = '<' then
      if Scanner.peek_char s 1 = '=' then do
        let s ← Scanner.next_char s
        pure ({ tok with text := tok.text.push s.ch, token_type := .LE }, s)
      else if Scanner.peek_char s 1 = '<' then do
        let s ← Scanner.next_char s
        let tok := { tok with text := tok.text.push s.ch }
        if Scanner.peek_char s 1 = '=' then do
          let s ← Scanner.next_char s
          pure ({ tok with text := tok.text.push s.ch, token_type := .LEFT_SHIFT_ASSIGN }, s)
        else
          pure ({ tok with token_type := .LEFT_SHIFT }, s)
      else
        pure ({ tok with token_type := .LT }, s)
    else if s.ch = '>' then
      if Scanner.peek_char s 1 = '=' then do
        let s ← Scanner.next_char s
        pure ({ tok with text := tok.text.push s.ch, token_type := .GE }, s)
      else if Scanner.peek_char s 1 = '>' then do
        let s ← Scanner.next_char s
        let tok := { tok with text := tok.text.push s.ch }
        if Scanner.peek_char s 1 = '=' then do
          let s ← Scanner.next_char s
          pure ({ tok with text := tok.text.push s.ch, token_type := .RIGHT_SHIFT_ASSIGN }, s)
        else
          pure ({ tok with token_type := .RIGHT_SHIFT }, s)
      else
        pure ({ tok with token_type := .GT }, s)
    else if s.ch = '^' then
      if Scanner.peek_char s 1 = '=' then do
        let s ← Scanner.next_char s
        pure ({ tok with text := tok.text.push s.ch, token_type := .BITWISE_XOR_ASSIGN }, s)
      else
        pure ({ tok with token_type := .BITWISE_XOR }, s)
    else if s.ch = '.' then
      if Scanner.peek_char s 1 = '.' then do
        let s ← Scanner.next_char s
        pure ({ tok with text := tok.text.push s.ch, token_type := .DOTDOT }, s)
      else
        pure ({ tok with token_type := .DOT }, s)
    else if s.ch = '+' then
      if Scanner.peek_char s 1 = '=' then do
        let s ← Scanner.next_char s
        pure ({ tok with text := tok.text.push s.ch, token_type := .PLUS_ASSIGN }, s)
      else
        pure ({ tok with token_type := .PLUS }, s)
    else if s.ch = '-' then
      if Scanner.peek_char s 1 = '=' then do
        let s ← Scanner.next_char s
        pure ({ tok with text := tok.text.push s.ch, token_type := .MINUS_ASSIGN }, s)
      else
        pure ({ tok with token_type := .MINUS }, s)
    else if s.ch = '*' then
      if Scanner.peek_char s 1 = '=' then do
        let s ← Scanner.next_char s
        pure ({ tok with text := tok.text.push s.ch, token_type := .MUL_ASSIGN }, s)
      else
        pure ({ tok with token_type := .MUL }, s)
    else if s.ch = '/' then
      if Scanner.peek_char s 1 = '=' then do
        let s ← Scanner.next_char s
        pure ({ tok with text := tok.text.push s.ch, token_type := .DIV_ASSIGN }, s)
      else
        pure ({ tok with token_type := .DIV }, s)
    else if s.ch = '%' then
      if Scanner.peek_char s 1 = '=' then do
        let s ← Scanner.next_char s
        pure ({ tok with text := tok.text.push s.ch, token_type := .MODULO_ASSIGN }, s)
      else
        pure ({ tok with token_type := .MODULO }, s)
    else if s.ch = '~' then pure ({ tok with token_type := .COMPL }, s)
    else if s.ch = '(' then pure ({ tok with token_type := .LPAREN }, s)
    else if s.ch = ')' then pure ({ tok with token_type := .RPAREN }, s)
    else if s.ch = '[' then pure ({ tok with token_type := .LBRACK }, s)
    else if s.ch = ']' then pure ({ tok with token_type := .RBRACK }, s)
    else if s.ch = '\x7b' then pure ({ tok with token_type := .LBRACE }, s)
    else if s.ch = '\x7d' then pure ({ tok with token_type := .RBRACE }, s)
    else if s.ch = ',' then pure ({ tok with token_type := .COMMA }, s)
    else if s.ch = ';' then pure ({ tok with token_type := .SEMICOLON }, s)
    else if s.ch = '\n' then
      pure ({ tok with token_type := .NEWLINE, line_num := tok.line_num - 1 },
            { s with line_pos := 0 })
    else
      .error (.fatal (Scanner.error_message s s.line_num s.line_pos
        ("unrecognized character '" ++ String.mk [s.ch] ++ "'")))
  let (tok, s) ← selected
  let s ← Scanner.next_char s
  .ok (tok, s)

/-- Scanner::next_token. -/
def Scanner.next_token (s : ScanState) : Except Err (Token × ScanState) := do
  let s ← Scanner.whitespace (Scanner.fuel s) s
  let comment : Except Err ScanState :=
    if Scanner.is_long_comment s then Scanner.long_comment s else pure s
  let s ← comment
  let tok := Token.new s.line_num s.line_pos
  if s.ch = eof_char then
    .ok ({ tok with text := "", token_type := .EOF }, s)
  else if Scanner.is_letter s then
    Scanner.word_token tok s
  else if Scanner.is_hex s then
    Scanner.number_token_hex tok s
  else if Scanner.is_digit s then
    Scanner.number_token tok s
  else if s.ch = '"' || s.ch = '\'' then
    Scanner.string_token tok s
  else
    Scanner.symbol_token tok s


/-- Parser state (src/parser/mod.rs): the scanner, the two-token lookahead
buffer, and the in-subroutine flag validating `return`.  The module shared
by scanner and parser is the `filename` inside the scanner state. -/
structure PState where
  scan : ScanState
  current : Token
  next : Token
  in_subroutine : Bool
deriving DecidableEq, Repr

/-- Parser::new: prime the two-token lookahead from the scanner. -/
def Parser.new (scanner : ScanState) : Except Err PState := do
  let (c, s) ← Scanner.next_token scanner
  let (n, s) ← Scanner.next_token s
  .ok { scan := s, current := c, next := n, in_subroutine := false }

/-- The categorized diagnostic label of Parser::error, chosen from the
offending token's kind: newline, end-of-file, the literal band
(ordinals STRING..IDENT), the keyword band (ordinals DEF..IMPORT), or the
symbol fallback. -/
def Parser.error_label (tok : Token) : String :=
  if tok.token_type = .NEWLINE then
    "unexpected newline, "
  else if tok.token_type = .EOF then
    "unexpected end-of-file, "
  else if is_between tok.token_type .STRING .IDENT then
    "unexpected literal near '" ++ tok.string ++ "', "
  else if is_between tok.token_type .DEF .IMPORT then
    "unexpected keyword near '" ++ tok.string ++ "', "
  else
    "unexpected symbol near '" ++ tok.string ++ "', "

/-- The full panic message of Parser::error:
`<module>:<line>:<pos>: <label><message>` for the current token. -/
def Parser.error_message (p : PState) (message : String) : String :=
  p.scan.filename ++ ":" ++ toString p.current.line_num ++ ":" ++
    toString p.current.line_pos ++ ": " ++ Parser.error_label p.current ++ message

/-- Parser::error as an Except outcome. -/
def Parser.fail {α : Type} (p : PState) (message : String) : Except Err α :=
  .error (.fatal (Parser.error_message p message))

/-- Parser::next_token: slide the lookahead buffer. -/
def Parser.next_token (p : PState) : Except Err PState := do
  let (t, s) ← Scanner.next_token p.scan
  .ok { p with current := p.next, next := t, scan := s }

/-- Parser::peek_current. -/
def Parser.peek_current (p : PState) : TokenType := p.current.token_type

/-- Parser::peek_next. -/
def Parser.peek_next (p : PState) : TokenType := p.next.token_type

/-- Parser::__match. -/
def Parser.__match (token_type : TokenType) (message : String) (p : PState) :
    Except Err PState :=
  if Parser.peek_current p ≠ token_type then Parser.fail p message
  else Parser.next_token p

/-- The loop of Parser::skip_newlines. -/
def Parser.skip_newlines_step (rec : PState → Except Err PState)
    (p : PState) : Except Err PState :=
  if Parser.peek_current p = .NEWLINE then do
    rec (← Parser.next_token p)
  else
    .ok p

/-- Fuel recursion for Parser::skip_newlines. -/
def Parser.skip_newlines_loop (fuel : Nat) : PState → Except Err PState :=
  Nat.rec (motive := fun _ => PState → Except Err PState)
    (fun _ => .error .fuel) (fun _ ih => Parser.skip_newlines_step ih) fuel

/-- Parser::skip_newlines (fuel above the number of newline tokens the
remaining input can still hold). -/
def Parser.skip_newlines (p : PState) : Except Err PState :=
  Parser.skip_newlines_loop (p.scan.input.length + 2) p

/-- Parser::next_and_skip_newlines. -/
def Parser.next_and_skip_newlines (p : PState) : Except Err PState := do
  Parser.skip_newlines (← Parser.next_token p)

/-- Parser::match_and_skip_newlines. -/
def Parser.match_and_skip_newlines (token_type : TokenType) (message : String)
    (p : PState) : Except Err PState := do
  Parser.skip_newlines (← Parser.__match token_type message p)

/-- Parser::match_line. -/
def Parser.match_line (message : String) (p : PState) : Except Err PState := do
  Parser.skip_newlines (← Parser.__match .NEWLINE message p)

/-- Parser::is_factor. -/
def Parser.is_factor (p : PState) : Bool :=
  Parser.peek_current p = .MINUS || Parser.peek_current p = .BANG ||
    Parser.peek_current p = .COMPL

/-- Parser::statement_trailer. -/
def Parser.statement_trailer (p : PState) : Except Err PState :=
  let token_type := Parser.peek_current p
  if token_type = .SEMICOLON then do
    Parser.skip_newlines (← Parser.next_token p)
  else if token_type = .NEWLINE then
    Parser.skip_newlines p
  else
    Parser.__match .EOF "expected end-of-file" p

/-- Parser::block_trailer. -/
def Parser.block_trailer (p : PState) : Except Err PState :=
  if Parser.peek_current p = .SEMICOLON then do
    Parser.skip_newlines (← Parser.next_token p)
  else
    Parser.match_line "expected newline" p

/-- The recursive productions of the parser.  Each constructor is one
function of src/parser/mod.rs; the `*_loop` constructors are their inner
`while`/`loop` bodies.  `parameter_list` and `expression_list` fold the
caller's `add_child` loop over the returned vector directly into the node
that receives the children (the resulting tree is identical). -/
inductive PCall where
  | program
  | program_loop (node : Node)
  | statement
  | def_statement (is_literal : Bool)
  | parameter_list (params : Node)
  | parameter_loop (params : Node)
  | if_statement
  | elif_collect (root : Node)
  | control_statement
  | for_statement
  | import_statement
  | debug_statement
  | return_statement
  | expr_statement
  | block
  | block_loop (node : Node)
  | expr
  | assignment_expr
  | range_expr
  | range_loop (left : Node)
  | or_expr
  | or_loop (left : Node)
  | and_expr
  | and_loop (left : Node)
  | eql_expr
  | eql_loop (left : Node)
  | comp_expr
  | comp_loop (left : Node)
  | bit_or_expr
  | bit_or_loop (left : Node)
  | xor_expr
  | xor_loop (left : Node)
  | bit_and_expr
  | bit_and_loop (left : Node)
  | shift_expr
  | shift_loop (left : Node)
  | arith_expr
  | arith_loop (left : Node)
  | term_expr
  | term_loop (left : Node)
  | factor_expr
  | trailer_expr
  | trailer_loop (left : Node)
  | atom
  | grouping
  | subscript (left : Node)
  | call_literal (left : Node)
  | array_literal
  | hash_literal
  | hash_loop (node : Node)
  | expression_list (end_type : TokenType) (node : Node)
  | expression_loop (end_type : TokenType) (node : Node)

/-- The parser: one fuel-indexed interpreter over the productions of
src/parser/mod.rs.  Fuel falls by one on every production step, so the
recursion is structural and reduces in the kernel; `parse_fuel` below
dominates the needed amount for any input. -/
def Parser.step (run : PCall → PState → Except Err (Node × PState))
    (c : PCall) (p : PState) : Except Err (Node × PState) :=
  match c with
    | .program => do
      let node := Node.new (Token.new_imag "BLOCK" .BLOCK
        p.current.line_num p.current.line_pos)
      let p ← Parser.skip_newlines p
      run (.program_loop node) p
    | .program_loop node =>
      if Parser.peek_current p ≠ .EOF then do
        let chosen : Except Err (Node × PState) :=
          if Parser.peek_current p = .DEF && Parser.peek_next p ≠ .LPAREN then
            run (.def_statement false) p
          else
            run .statement p
        let (n, p) ← chosen
        let node := node.add_child n
        let p ← Parser.statement_trailer p
        run (.program_loop node) p
      else
        .ok (node, p)
    | .statement =>
      match Parser.peek_current p with
      | .IF => run .if_statement p
      | .WHILE => run .control_statement p
      | .UNTIL => run .control_statement p
      | .FOR => run .for_statement p
      | .IMPORT => run .import_statement p
      | .DEBUG => run .debug_statement p
      | .RETURN => run .return_statement p
      | _ => run .expr_statement p
    | .def_statement is_literal => do
      let p ← Parser.next_token p
      let head : Except Err (Node × PState) :=
        if !is_literal then
          let node := Node.new (Token.new_imag "SUB_DECL" .SUB_DECL
            p.current.line_num p.current.line_pos)
          if Parser.peek_current p ≠ .IDENT then
            Parser.fail p "expected identifier"
          else do
            let node := node.add_child (Node.new p.current)
            let p ← Parser.next_token p
            pure (node, p)
        else
          pure (Node.new (Token.new_imag "SUB_LITERAL" .SUB_LITERAL
            p.current.line_num p.current.line_pos), p)
      let (node, p) ← head
      let p ← Parser.match_and_skip_newlines .LPAREN
        "expected '(' to open parameter list" p
      let params := Node.new (Token.new_imag "SUB_PARAMS" .SUB_PARAMS
        p.current.line_num p.current.line_pos)
      let (params, p) ← run (.parameter_list params) p
      let p ← Parser.skip_newlines p
      let p ← Parser.__match .RPAREN "expected ')' to close parameter list" p
      let node := node.add_child params
      let p := { p with in_subroutine := true }
      let (blk, p) ← run .block p
      let p := { p with in_subroutine := false }
      .ok (node.add_child blk, p)
    | .parameter_list params =>
      if Parser.peek_current p = .RPAREN then
        .ok (params, p)
      else
        run (.parameter_loop params) p
    | .parameter_loop params =>
      if Parser.peek_current p ≠ .IDENT then
        Parser.fail p "expected identifier as argument"
      else do
        let params := params.add_child (Node.new p.current)
        let p ← Parser.next_token p
        if Parser.peek_current p ≠ .COMMA then
          .ok (params, p)
        else do
          let p ← Parser.next_and_skip_newlines p
          run (.parameter_loop params) p
    | .if_statement => do
      let node := Node.new p.current
      let p ← Parser.next_token p
      let (e, p) ← run .expr p
      let node := node.add_child e
      let (b, p) ← run .block p
      let node := node.add_child b
      let root := Node.new (Token.new_imag "ELIF" .ELIF
        p.current.line_num p.current.line_pos)
      let (root, p) ← run (.elif_collect root) p
      let node := node.add_child root
      if Parser.peek_current p = .ELSE then do
        let p ← Parser.next_token p
        let (eb, p) ← run .block p
        .ok (node.add_child eb, p)
      else
        .ok (node, p)
    | .elif_collect root =>
      if Parser.peek_current p = .ELIF then do
        let p ← Parser.next_token p
        let (e, p) ← run .expr p
        let root := root.add_child e
        let (b, p) ← run .block p
        run (.elif_collect (root.add_child b)) p
      else
        .ok (root, p)
    | .control_statement => do
      let node := Node.new p.current
      let p ← Parser.next_token p
      let (e, p) ← run .expr p
      let (b, p) ← run .block p
      .ok ((node.add_child e).add_child b, p)
    | .for_statement => do
      let node := Node.new p.current
      let p ← Parser.next_token p
      if Parser.peek_current p ≠ .IDENT then
        Parser.fail p "expected identifier"
      else do
        let node := node.add_child (Node.new p.current)
        let p ← Parser.next_token p
        let p ← Parser.__match .IN "expected keyword 'in' before expression" p
        let (e, p) ← run .expr p
        let (b, p) ← run .block p
        .ok ((node.add_child e).add_child b, p)
    | .import_statement => do
      let node := Node.new p.current
      let p ← Parser.next_token p
      let (e, p) ← run .expr p
      .ok (node.add_child e, p)
    | .debug_statement => do
      let node := Node.new p.current
      let p ← Parser.next_token p
      let (e, p) ← run .expr p
      .ok (node.add_child e, p)
    | .return_statement =>
      if !p.in_subroutine then
        Parser.fail p "'return' outside subroutine"
      else do
        let node := Node.new p.current
        let p ← Parser.next_token p
        let token_type := Parser.peek_current p
        if token_type ≠ .NEWLINE && token_type ≠ .SEMICOLON &&
           token_type ≠ .EOF then do
          let (e, p) ← run .expr p
          .ok (node.add_child e, p)
        else
          .ok (node, p)
    | .expr_statement => run .expr p
    | .block => do
      let p ← Parser.skip_newlines p
      let p ← Parser.__match .LBRACE "expected '\x7b' to open block" p
      let node := Node.new (Token.new_imag "BLOCK" .BLOCK
        p.current.line_num p.current.line_pos)
      let p ← Parser.skip_newlines p
      run (.block_loop node) p
    | .block_loop node =>
      if Parser.peek_current p ≠ .RBRACE && Parser.peek_current p ≠ .EOF then do
        let (n, p) ← run .statement p
        let node := node.add_child n
        let p ← Parser.block_trailer p
        run (.block_loop node) p
      else do
        let p ← Parser.__match .RBRACE "expected '\x7d' to close block" p
        .ok (node, p)
    | .expr => run .assignment_expr p
    | .assignment_expr => do
      let (left, p) ← run .range_expr p
      if Parser.peek_current p = .ASSIGN then
        match left.get_type with
        | .SUBSCRIPT | .IDENT => do
          let op_node := Node.new p.current
          let left := left.get_root op_node
          let p ← Parser.next_and_skip_newlines p
          let (r, p) ← run .range_expr p
          .ok (left.add_child r, p)
        | _ => Parser.fail p ""
      else
        .ok (left, p)
    | .range_expr => do
      let (left, p) ← run .or_expr p
      run (.range_loop left) p
    | .range_loop left =>
      if Parser.peek_current p = .DOTDOT then do
        let left := left.get_root (Node.new p.current)
        let p ← Parser.next_and_skip_newlines p
        let (r, p) ← run .or_expr p
        run (.range_loop (left.add_child r)) p
      else
        .ok (left, p)
    | .or_expr => do
      let (left, p) ← run .and_expr p
      run (.or_loop left) p
    | .or_loop left =>
      if Parser.peek_current p = .LOGICAL_OR then do
        let left := left.get_root (Node.new p.current)
        let p ← Parser.next_and_skip_newlines p
        let (r, p) ← run .and_expr p
        run (.or_loop (left.add_child r)) p
      else
        .ok (left, p)
    | .and_expr => do
      let (left, p) ← run .eql_expr p
      run (.and_loop left) p
    | .and_loop left =>
      if Parser.peek_current p = .LOGICAL_AND then do
        let left := left.get_root (Node.new p.current)
        let p ← Parser.next_and_skip_newlines p
        let (r, p) ← run .eql_expr p
        run (.and_loop (left.add_child r)) p
      else
        .ok (left, p)
    | .eql_expr => do
      let (left, p) ← run .comp_expr p
      run (.eql_loop left) p
    | .eql_loop left =>
      if Parser.peek_current p = .EQL || Parser.peek_current p = .NOT_EQL then do
        let left := left.get_root (Node.new p.current)
        let p ← Parser.next_and_skip_newlines p
        let (r, p) ← run .comp_expr p
        run (.eql_loop (left.add_child r)) p
      else
        .ok (left, p)
    | .comp_expr => do
      let (left, p) ← run .bit_or_expr p
      run (.comp_loop left) p
    | .comp_loop left =>
      if is_between (Parser.peek_current p) .LT .GE then do
        let left := left.get_root (Node.new p.current)
        let p ← Parser.next_and_skip_newlines p
        let (r, p) ← run .bit_or_expr p
        run (.comp_loop (left.add_child r)) p
      else
        .ok (left, p)
    | .bit_or_expr => do
      let (left, p) ← run .xor_expr p
      run (.bit_or_loop left) p
    | .bit_or_loop left =>
      if Parser.peek_current p = .BITWISE_OR then do
        let left := left.get_root (Node.new p.current)
        let p ← Parser.next_and_skip_newlines p
        let (r, p) ← run .xor_expr p
        run (.bit_or_loop (left.add_child r)) p
      else
        .ok (left, p)
    | .xor_expr => do
      let (left, p) ← run .bit_and_expr p
      run (.xor_loop left) p
    | .xor_loop left =>
      if Parser.peek_current p = .BITWISE_XOR then do
        let left := left.get_root (Node.new p.current)
        let p ← Parser.next_and_skip_newlines p
        let (r, p) ← run .bit_and_expr p
        run (.xor_loop (left.add_child r)) p
      else
        .ok (left, p)
    | .bit_and_expr => do
      let (left, p) ← run .shift_expr p
      run (.bit_and_loop left) p
    | .bit_and_loop left =>
      if Parser.peek_current p = .BITWISE_AND then do
        let left := left.get_root (Node.new p.current)
        let p ← Parser.next_and_skip_newlines p
        let (r, p) ← run .shift_expr p
        run (.bit_and_loop (left.add_child r)) p
      else
        .ok (left, p)
    | .shift_expr => do
      let (left, p) ← run .arith_expr p
      run (.shift_loop left) p
    | .shift_loop left =>
      if Parser.peek_current p = .LEFT_SHIFT ||
         Parser.peek_current p = .RIGHT_SHIFT then do
        let left := left.get_root (Node.new p.current)
        let p ← Parser.next_and_skip_newlines p
        let (r, p) ← run .arith_expr p
        run (.shift_loop (left.add_child r)) p
      else
        .ok (left, p)
    | .arith_expr => do
      let (left, p) ← run .term_expr p
      run (.arith_loop left) p
    | .arith_loop left =>
      if Parser.peek_current p = .PLUS || Parser.peek_current p = .MINUS then do
        let left := left.get_root (Node.new p.current)
        let p ← Parser.next_and_skip_newlines p
        let (r, p) ← run .term_expr p
        run (.arith_loop (left.add_child r)) p
      else
        .ok (left, p)
    | .term_expr => do
      let (left, p) ← run .factor_expr p
      run (.term_loop left) p
    | .term_loop left =>
      if is_between (Parser.peek_current p) .MUL .MODULO then do
        let left := left.get_root (Node.new p.current)
        let p ← Parser.next_and_skip_newlines p
        let (r, p) ← run .factor_expr p
        run (.term_loop (left.add_child r)) p
      else
        .ok (left, p)
    | .factor_expr =>
      if Parser.is_factor p then do
        let p :=
          if Parser.peek_current p = .MINUS then
            { p with current := { p.current with token_type := .NEGATE } }
          else
            p
        let left := Node.new p.current
        let p ← Parser.next_and_skip_newlines p
        let operand : Except Err (Node × PState) :=
          if Parser.is_factor p then
            run .factor_expr p
          else
            run .trailer_expr p
        let (child, p) ← operand
        .ok (left.add_child child, p)
      else
        run .trailer_expr p
    | .trailer_expr => do
      let (left, p) ← run .atom p
      run (.trailer_loop left) p
    | .trailer_loop left =>
      if Parser.peek_current p = .LBRACK then do
        let (left, p) ← run (.subscript left) p
        run (.trailer_loop left) p
      else if Parser.peek_current p = .LPAREN then do
        let (left, p) ← run (.call_literal left) p
        run (.trailer_loop left) p
      else
        .ok (left, p)
    | .atom =>
      match Parser.peek_current p with
      | .STRING | .INTEGER | .FLOAT | .TRUE | .FALSE | .NIL | .IDENT => do
        let node := Node.new p.current
        let p ← Parser.next_token p
        .ok (node, p)
      | .LBRACK => run .array_literal p
      | .LBRACE => run .hash_literal p
      | .LPAREN => run .grouping p
      | .DEF => run (.def_statement true) p
      | _ => Parser.fail p "expected expression"
    | .grouping => do
      let p ← Parser.next_token p
      let (node, p) ← run .expr p
      let p ← Parser.__match .RPAREN "expected ')'" p
      .ok (node, p)
    | .subscript left => do
      let node := Node.new (Token.new_imag "SUBSCRIPT" .SUBSCRIPT
        p.current.line_num p.current.line_pos)
      let node := left.get_root node
      let p ← Parser.next_and_skip_newlines p
      let (e, p) ← run .expr p
      let node := node.add_child e
      let p ← Parser.skip_newlines p
      let p ← Parser.__match .RBRACK "expected ']' to close subscript" p
      .ok (node, p)
    | .call_literal left => do
      let node := Node.new (Token.new_imag "CALL" .CALL
        p.current.line_num p.current.line_pos)
      let node := left.get_root node
      let p ← Parser.next_and_skip_newlines p
      let (node, p) ← run (.expression_list .RPAREN node) p
      let p ← Parser.skip_newlines p
      let p ← Parser.__match .RPAREN "expected ')' to close the function call" p
      .ok (node, p)
    | .array_literal => do
      let node := Node.new (Token.new_imag "ARRAY_DECL" .ARRAY_DECL
        p.current.line_num p.current.line_pos)
      let p ← Parser.next_and_skip_newlines p
      let (node, p) ← run (.expression_list .RBRACK node) p
      let p ← Parser.skip_newlines p
      let p ← Parser.__match .RBRACK "expected ']' to close array literal" p
      .ok (node, p)
    | .hash_literal => do
      let node := Node.new (Token.new_imag "HASH_DECL" .HASH_DECL
        p.current.line_num p.current.line_pos)
      let p ← Parser.next_and_skip_newlines p
      if Parser.peek_current p = .RBRACE then do
        let p ← Parser.next_token p
        .ok (node, p)
      else
        run (.hash_loop node) p
    | .hash_loop node => do
      let elem := Node.new (Token.new_imag "HASH_ELEM" .HASH_ELEM
        p.current.line_num p.current.line_pos)
      let (k, p) ← run .expr p
      let elem := elem.add_child k
      let p ← Parser.__match .ASSIGN_ARROW "expected '=>'" p
      let (v, p) ← run .expr p
      let elem := elem.add_child v
      let node := node.add_child elem
      if Parser.peek_current p ≠ .COMMA then do
        let p ← Parser.skip_newlines p
        let p ← Parser.__match .RBRACE "expected '\x7d' to close hash literal" p
        .ok (node, p)
      else do
        let p ← Parser.next_and_skip_newlines p
        run (.hash_loop node) p
    | .expression_list end_type node =>
      if Parser.peek_current p = end_type then
        .ok (node, p)
      else
        run (.expression_loop end_type node) p
    | .expression_loop end_type node => do
      let (e, p) ← run .expr p
      let node := node.add_child e
      if Parser.peek_current p ≠ .COMMA then
        .ok (node, p)
      else do
        let p ← Parser.next_and_skip_newlines p
        run (.expression_loop end_type node) p


/-- The parser's fuel recursion over Parser.step (explicit `Nat.rec` so the
kernel unfolds one production step per fuel unit). -/
def Parser.run (fuel : Nat) : PCall → PState → Except Err (Node × PState) :=
  Nat.rec (motive := fun _ => PCall → PState → Except Err (Node × PState))
    (fun _ _ => .error .fuel) (fun _ ih => Parser.step ih) fuel

/-- Parser::program. -/
def Parser.program (fuel : Nat) (p : PState) : Except Err (Node × PState) :=
  Parser.run fuel .program p

/-- Parser::statement. -/
def Parser.statement (fuel : Nat) (p : PState) : Except Err (Node × PState) :=
  Parser.run fuel .statement p

/-- Parser::def_statement. -/
def Parser.def_statement (fuel : Nat) (is_literal : Bool) (p : PState) :
    Except Err (Node × PState) :=
  Parser.run fuel (.def_statement is_literal) p

/-- Parser::if_statement. -/
def Parser.if_statement (fuel : Nat) (p : PState) : Except Err (Node × PState) :=
  Parser.run fuel .if_statement p

/-- Parser::return_statement. -/
def Parser.return_statement (fuel : Nat) (p : PState) :
    Except Err (Node × PState) :=
  Parser.run fuel .return_statement p

/-- Parser::expr. -/
def Parser.expr (fuel : Nat) (p : PState) : Except Err (Node × PState) :=
  Parser.run fuel .expr p

/-- Parser::assignment_expr. -/
def Parser.assignment_expr (fuel : Nat) (p : PState) :
    Except Err (Node × PState) :=
  Parser.run fuel .assignment_expr p

/-- Parser::range_expr. -/
def Parser.range_expr (fuel : Nat) (p : PState) : Except Err (Node × PState) :=
  Parser.run fuel .range_expr p

/-- Parser::hash_literal. -/
def Parser.hash_literal (fuel : Nat) (p : PState) : Except Err (Node × PState) :=
  Parser.run fuel .hash_literal p

/-- Fuel that dominates the number of production steps of any parse of the
given buffer. -/
def parse_fuel (input : List Char) : Nat := 32 * (input.length + 8)

/-- Build scanner and parser over a module named `filename` and parse the
whole program, returning the root BLOCK node. -/
def parse_program (filename : String) (src : String) : Except Err Node := do
  let scanner := Scanner.new filename src.data
  let p ← Parser.new scanner
  let (node, _) ← Parser.program (parse_fuel src.data) p
  .ok node

/-- The parse tree rendered by Node::to_string_tree. -/
def parse_tree (filename : String) (src : String) : Except Err String :=
  (parse_program filename src).map Node.to_string_tree


/-- A throwaway parser state used as the error arm of concrete extractions
below (never reached on the runs they extract). -/
def default_pstate : PState :=
  { scan := { filename := "", input := [], line_num := 1, line_pos := 0,
              position := 0, ch := eof_char },
    current := Token.new 1 0, next := Token.new 1 0, in_subroutine := false }

/-- The parser state over the program `def f() {\n}\n`, current token `def`. -/
def c2_pstate : PState :=
  match Parser.new (Scanner.new "main" "def f() \x7b\n\x7d\n".data) with
  | .ok p => p
  | .error _ => default_pstate

/-- The named-subroutine parse of `def f() {\n}\n`. -/
def c2_run : Node × PState :=
  match Parser.def_statement 400 false c2_pstate with
  | .ok r => r
  | .error _ => (Node.new (Token.new 1 0), default_pstate)

/-- A parser continuation that is never consulted. -/
def c3_rec : PCall → PState → Except Err (Node × PState) := fun _ _ => .error .fuel

/-- A top-level parser state whose current token is `return` and whose
in-subroutine flag is clear. -/
def c3_pstate : PState :=
  { scan := { filename := "main", input := [], line_num := 1, line_pos := 0,
              position := 0, ch := eof_char },
    current := { text := "return", token_type := .RETURN,
                 value := .IntegerValue 0, line_num := 1, line_pos := 1 },
    next := Token.new 1 1, in_subroutine := false }

/-- A `def` keyword token. -/
def c5_def_tok : Token :=
  { text := "def", token_type := .DEF, value := .IntegerValue 0,
    line_num := 1, line_pos := 1 }

/-- A `return` keyword token. -/
def c5_return_tok : Token :=
  { text := "return", token_type := .RETURN, value := .IntegerValue 0,
    line_num := 1, line_pos := 1 }

/-- The first token and final state of scanning `'ab'`. -/
def c6_scan : Token × ScanState :=
  match Scanner.next_token (Scanner.new "main" "'ab'".data) with
  | .ok r => r
  | .error _ => (Token.new 1 0, Scanner.new "main" [])

/-- The integer-literal node `1`. -/
def c7_left : Node :=
  Node.new { text := "1", token_type := .INTEGER, value := .IntegerValue 1,
             line_num := 1, line_pos := 1 }

/-- A parser state whose current token is `=`. -/
def c7_state : PState :=
  { scan := { filename := "main", input := [], line_num := 1, line_pos := 0,
              position := 0, ch := eof_char },
    current := { text := "=", token_type := .ASSIGN, value := .IntegerValue 0,
                 line_num := 1, line_pos := 3 },
    next := Token.new 1 3, in_subroutine := false }

/-- A parser continuation whose range_expr result is the literal `1` with an
`=` as the following token. -/
def c7_rec : PCall → PState → Except Err (Node × PState) :=
  fun _ _ => .ok (c7_left, c7_state)

/-- The EOF token and final state of scanning the empty program. -/
def c9_scan : Token × ScanState :=
  match Scanner.next_token (Scanner.new "main" []) with
  | .ok r => r
  | .error _ => (Token.new 1 0, Scanner.new "main" [])

/-- The parser state over the program `if a {\n}\n`, current token `if`. -/
def c10_pstate : PState :=
  match Parser.new (Scanner.new "main" "if a \x7b\n\x7d\n".data) with
  | .ok p => p
  | .error _ => default_pstate

/-- The if-statement parse of `if a {\n}\n`. -/
def c10_run : Node × PState :=
  match Parser.if_statement 400 c10_pstate with
  | .ok r => r
  | .error _ => (Node.new (Token.new 1 0), default_pstate)

/-- Case analysis for a bind in the Except monad. -/
theorem except_bind_eq_ok {α β : Type} {e : Except Err α} {k : α → Except Err β} {r : β} :
    (e >>= k) = .ok r ↔ ∃ a, e = .ok a ∧ k a = .ok r := by
  cases e <;> simp [Bind.bind, Except.bind]

/-- Case analysis for pure in the Except monad. -/
theorem except_pure_eq_ok {α : Type} {a r : α} :
    (pure a : Except Err α) = .ok r ↔ a = r := by
  simp [pure, Except.pure]

/-- Node::add_child leaves the node's own token unchanged. -/
theorem Node.token_add_child (n c : Node) : (n.add_child c).token = n.token := by
  cases n; rfl

/-- Node::new wraps the given token. -/
theorem Node.token_new (t : Token) : (Node.new t).token = t := rfl

/-- Every reserved word maps to a keyword or keyword-literal kind, never to
the end-of-file or string kind. -/
theorem reserved_words_kind {w : String} {t : TokenType}
    (h : reserved_words w = some t) : t ≠ .EOF ∧ t ≠ .STRING := by
  unfold reserved_words at h
  by_cases h0 : w = "def" <;> simp only [h0, reduceIte] at h
  · injection h with h; subst h; exact ⟨by decide, by decide⟩
  by_cases h1 : w = "if" <;> simp only [h1, reduceIte] at h
  · injection h with h; subst h; exact ⟨by decide, by decide⟩
  by_cases h2 : w = "elif" <;> simp only [h2, reduceIte] at h
  · injection h with h; subst h; exact ⟨by decide, by decide⟩
  by_cases h3 : w = "else" <;> simp only [h3, reduceIte] at h
  · injection h with h; subst h; exact ⟨by decide, by decide⟩
  by_cases h4 : w = "for" <;> simp only [h4, reduceIte] at h
  · injection h with h; subst h; exact ⟨by decide, by decide⟩
  by_cases h5 : w = "while" <;> simp only [h5, reduceIte] at h
  · injection h with h; subst h; exact ⟨by decide, by decide⟩
  by_cases h6 : w = "until" <;> simp only [h6, reduceIte] at h
  · injection h with h; subst h; exact ⟨by decide, by decide⟩
  by_cases h7 : w = "in" <;> simp only [h7, reduceIte] at h
  · injection h with h; subst h; exact ⟨by decide, by decide⟩
  by_cases h8 : w = "import" <;> simp only [h8, reduceIte] at h
  · injection h with h; subst h; exact ⟨by decide, by decide⟩
  by_cases h9 : w = "true" <;> simp only [h9, reduceIte] at h
  · injection h with h; subst h; exact ⟨by decide, by decide⟩
  by_cases h10 : w = "false" <;> simp only [h10, reduceIte] at h
  · injection h with h; subst h; exact ⟨by decide, by decide⟩
  by_cases h11 : w = "nil" <;> simp only [h11, reduceIte] at h
  · injection h with h; subst h; exact ⟨by decide, by decide⟩
  by_cases h12 : w = "debug" <;> simp only [h12, reduceIte] at h
  · injection h with h; subst h; exact ⟨by decide, by decide⟩
  by_cases h13 : w = "return" <;> simp only [h13, reduceIte] at h
  · injection h with h; subst h; exact ⟨by decide, by decide⟩
  exact Option.noConfusion h

/-- Scanner::word_token yields identifier or reserved-word kinds only. -/
theorem Scanner.word_token_kind {tok t : Token} {s s' : ScanState}
    (h : Scanner.word_token tok s = .ok (t, s')) :
    t.token_type ≠ .EOF ∧ t.token_type ≠ .STRING := by
  unfold Scanner.word_token at h
  simp only [except_bind_eq_ok] at h
  obtain ⟨s1, _, h⟩ := h
  split at h
  · rename_i w hw
    simp only [Except.ok.injEq, Prod.mk.injEq] at h
    obtain ⟨ht, _⟩ := h
    have hk := reserved_words_kind hw
    rw [← ht]
    exact hk
  · simp only [Except.ok.injEq, Prod.mk.injEq] at h
    obtain ⟨ht, _⟩ := h
    rw [← ht]
    exact ⟨by simp, by simp⟩

/-- Scanner::number_token yields the integer or float kind only. -/
theorem Scanner.number_token_kind {tok t : Token} {s s' : ScanState}
    (h : Scanner.number_token tok s = .ok (t, s')) :
    t.token_type ≠ .EOF ∧ t.token_type ≠ .STRING := by
  unfold Scanner.number_token at h
  simp only [except_bind_eq_ok] at h
  obtain ⟨s1, _, h⟩ := h
  obtain ⟨⟨tok2, s2⟩, h2, h⟩ := h
  have htype : tok2.token_type = .INTEGER ∨ tok2.token_type = .FLOAT := by
    split at h2
    · simp only [except_bind_eq_ok, except_pure_eq_ok, Prod.mk.injEq] at h2
      obtain ⟨s3, _, s4, _, h2, _⟩ := h2
      rw [← h2]; right; rfl
    · simp only [except_pure_eq_ok, Prod.mk.injEq] at h2
      obtain ⟨h2, _⟩ := h2
      rw [← h2]; left; rfl
  split at h
  · split at h
    · split at h
      · simp only [Except.ok.injEq, Prod.mk.injEq] at h
        obtain ⟨h1, _⟩ := h
        rw [← h1]
        constructor <;> (rcases htype with ht | ht <;> simp [ht])
      · simp [Scanner.fail] at h
    · simp [Scanner.fail] at h
  · simp only [Except.ok.injEq, Prod.mk.injEq] at h
    obtain ⟨h1, _⟩ := h
    rw [← h1]
    constructor <;> (rcases htype with ht | ht <;> simp [ht])

/-- Scanner::number_token_hex yields the integer kind. -/
theorem Scanner.number_token_hex_kind {tok t : Token} {s s' : ScanState}
    (h : Scanner.number_token_hex tok s = .ok (t, s')) :
    t.token_type = .INTEGER := by
  unfold Scanner.number_token_hex at h
  simp only [except_bind_eq_ok] at h
  obtain ⟨s1, _, h⟩ := h
  obtain ⟨s2, _, h⟩ := h
  split at h
  · split at h
    · simp only [Except.ok.injEq, Prod.mk.injEq] at h
      obtain ⟨h1, _⟩ := h
      rw [← h1]
    · simp [Scanner.fail] at h
  · simp [Scanner.fail] at h

/-- Scanner::string_token yields a string token whose value is the decoded
text itself. -/
theorem Scanner.string_token_kind {tok t : Token} {s s' : ScanState}
    (h : Scanner.string_token tok s = .ok (t, s')) :
    t.token_type = .STRING ∧ t.value = .StringValue t.text := by
  unfold Scanner.string_token at h
  simp only [except_bind_eq_ok] at h
  obtain ⟨s1, _, h⟩ := h
  obtain ⟨⟨buf, s2⟩, _, h⟩ := h
  split at h
  · exact Except.noConfusion h
  · simp only [except_bind_eq_ok] at h
    obtain ⟨s3, _, h⟩ := h
    simp only [Except.ok.injEq, Prod.mk.injEq] at h
    obtain ⟨h1, _⟩ := h
    rw [← h1]
    exact ⟨rfl, rfl⟩

/-- The symbol branch of the scanner never yields the end-of-file or string
kind. -/
theorem Scanner.symbol_token_kind {tok t : Token} {s s' : ScanState}
    (h : Scanner.symbol_token tok s = .ok (t, s')) :
    t.token_type ≠ .EOF ∧ t.token_type ≠ .STRING := by
  unfold Scanner.symbol_token at h
  simp only [except_bind_eq_ok] at h
  obtain ⟨⟨tok2, s2⟩, hB, hrest⟩ := h
  obtain ⟨s4, _, hfin⟩ := hrest
  simp only [Except.ok.injEq, Prod.mk.injEq] at hfin
  obtain ⟨h1, _⟩ := hfin
  rw [← h1]
  by_cases c43 : s.ch = '|' <;> simp only [c43, reduceIte] at hB
  · by_cases c2 : Scanner.peek_char s 1 = '|' <;> simp only [c2, reduceIte] at hB
    · simp only [except_bind_eq_ok, except_pure_eq_ok, Prod.mk.injEq] at hB
      obtain ⟨s9, _, h1, _⟩ := hB
      rw [← h1]
      exact ⟨by simp, by simp⟩
    by_cases c1 : Scanner.peek_char s 1 = '=' <;> simp only [c1, reduceIte] at hB
    · simp only [except_bind_eq_ok, except_pure_eq_ok, Prod.mk.injEq] at hB
      obtain ⟨s9, _, h1, _⟩ := hB
      rw [← h1]
      exact ⟨by simp, by simp⟩
    simp only [except_pure_eq_ok, Prod.mk.injEq] at hB
    obtain ⟨h1, _⟩ := hB
    rw [← h1]
    exact ⟨by simp, by simp⟩
  by_cases c42 : s.ch = '&' <;> simp only [c42, reduceIte] at hB
  · by_cases c4 : Scanner.peek_char s 1 = '&' <;> simp only [c4, reduceIte] at hB
    · simp only [except_bind_eq_ok, except_pure_eq_ok, Prod.mk.injEq] at hB
      obtain ⟨s9, _, h1, _⟩ := hB
      rw [← h1]
      exact ⟨by simp, by simp⟩
    by_cases c3 : Scanner.peek_char s 1 = '=' <;> simp only [c3, reduceIte] at hB
    · simp only [except_bind_eq_ok, except_pure_eq_ok, Prod.mk.injEq] at hB
      obtain ⟨s9, _, h1, _⟩ := hB
      rw [← h1]
      exact ⟨by simp, by simp⟩
    simp only [except_pure_eq_ok, Prod.mk.injEq] at hB
    obtain ⟨h1, _⟩ := hB
    rw [← h1]
    exact ⟨by simp, by simp⟩
  by_cases c41 : s.ch = '=' <;> simp only [c41, reduceIte] at hB
  · by_cases c6 : Scanner.peek_char s 1 = '=' <;> simp only [c6, reduceIte] at hB
    · simp only [except_bind_eq_ok, except_pure_eq_ok, Prod.mk.injEq] at hB
      obtain ⟨s9, _, h1, _⟩ := hB
      rw [← h1]
      exact ⟨by simp, by simp⟩
    by_cases c5 : Scanner.peek_char s 1 = '>' <;> simp only [c5, reduceIte] at hB
    · simp only [except_bind_eq_ok, except_pure_eq_ok, Prod.mk.injEq] at hB
      obtain ⟨s9, _, h1, _⟩ := hB
      rw [← h1]
      exact ⟨by simp, by simp⟩
    simp only [except_pure_eq_ok, Prod.mk.injEq] at hB
    obtain ⟨h1, _⟩ := hB
    rw [← h1]
    exact ⟨by simp, by simp⟩
  by_cases c40 : s.ch = '!' <;> simp only [c40, reduceIte] at hB
  · by_cases c7 : Scanner.peek_char s 1 = '=' <;> simp only [c7, reduceIte] at hB
    · simp only [except_bind_eq_ok, except_pure_eq_ok, Prod.mk.injEq] at hB
      obtain ⟨s9, _, h1, _⟩ := hB
      rw [← h1]
      exact ⟨by simp, by simp⟩
    simp only [except_pure_eq_ok, Prod.mk.injEq] at hB
    obtain ⟨h1, _⟩ := hB
    rw [← h1]
    exact ⟨by simp, by simp⟩
  by_cases c39 : s.ch = '<' <;> simp only [c39, reduceIte] at hB
  · by_cases c10 : Scanner.peek_char s 1 = '=' <;> simp only [c10, reduceIte] at hB
    · simp only [except_bind_eq_ok, except_pure_eq_ok, Prod.mk.injEq] at hB
      obtain ⟨s9, _, h1, _⟩ := hB
      rw [← h1]
      exact ⟨by simp, by simp⟩
    by_cases c9 : Scanner.peek_char s 1 = '<' <;> simp only [c9, reduceIte] at hB
    · simp only [except_bind_eq_ok] at hB
      obtain ⟨s9, _, hB⟩ := hB
      by_cases c8 : Scanner.peek_char s9 1 = '=' <;> simp only [c8, reduceIte] at hB
      · simp only [except_bind_eq_ok, except_pure_eq_ok, Prod.mk.injEq] at hB
        obtain ⟨s8, _, h1, _⟩ := hB
        rw [← h1]
        exact ⟨by simp, by simp⟩
      simp only [except_pure_eq_ok, Prod.mk.injEq] at hB
      obtain ⟨h1, _⟩ := hB
      rw [← h1]
      exact ⟨by simp, by simp⟩
    simp only [except_pure_eq_ok, Prod.mk.injEq] at hB
    obtain ⟨h1, _⟩ := hB
    rw [← h1]
    exact ⟨by simp, by simp⟩
  by_cases c38 : s.ch = '>' <;> simp only [c38, reduceIte] at hB
  · by_cases c13 : Scanner.peek_char s 1 = '=' <;> simp only [c13, reduceIte] at hB
    · simp only [except_bind_eq_ok, except_pure_eq_ok, Prod.mk.injEq] at hB
      obtain ⟨s9, _, h1, _⟩ := hB
      rw [← h1]
      exact ⟨by simp, by simp⟩
    by_cases c12 : Scanner.peek_char s 1 = '>' <;> simp only [c12, reduceIte] at hB
    · simp only [except_bind_eq_ok] at hB
      obtain ⟨s9, _, hB⟩ := hB
      by_cases c11 : Scanner.peek_char s9 1 = '=' <;> simp only [c11, reduceIte] at hB
      · simp only [except_bind_eq_ok, except_pure_eq_ok, Prod.mk.injEq] at hB
        obtain ⟨s8, _, h1, _⟩ := hB
        rw [← h1]
        exact ⟨by simp, by simp⟩
      simp only [except_pure_eq_ok, Prod.mk.injEq] at hB
      obtain ⟨h1, _⟩ := hB
      rw [← h1]
      exact ⟨by simp, by simp⟩
    simp only [except_pure_eq_ok, Prod.mk.injEq] at hB
    obtain ⟨h1, _⟩ := hB
    rw [← h1]
    exact ⟨by simp, by simp⟩
  by_cases c37 : s.ch = '^' <;> simp only [c37, reduceIte] at hB
  · by_cases c14 : Scanner.peek_char s 1 = '=' <;> simp only [c14, reduceIte] at hB
    · simp only [except_bind_eq_ok, except_pure_eq_ok, Prod.mk.injEq] at hB
      obtain ⟨s9, _, h1, _⟩ := hB
      rw [← h1]
      exact ⟨by simp, by simp⟩
    simp only [except_pure_eq_ok, Prod.mk.injEq] at hB
    obtain ⟨h1, _⟩ := hB
    rw [← h1]
    exact ⟨by simp, by simp⟩
  by_cases c36 : s.ch = '.' <;> simp only [c36, reduceIte] at hB
  · by_cases c15 : Scanner.peek_char s 1 = '.' <;> simp only [c15, reduceIte] at hB
    · simp only [except_bind_eq_ok, except_pure_eq_ok, Prod.mk.injEq] at hB
      obtain ⟨s9, _, h1, _⟩ := hB
      rw [← h1]
      exact ⟨by simp, by simp⟩
    simp only [except_pure_eq_ok, Prod.mk.injEq] at hB
    obtain ⟨h1, _⟩ := hB
    rw [← h1]
    exact ⟨by simp, by simp⟩
  by_cases c35 : s.ch = '+' <;> simp only [c35, reduceIte] at hB
  · by_cases c16 : Scanner.peek_char s 1 = '=' <;> simp only [c16, reduceIte] at hB
    · simp only [except_bind_eq_ok, except_pure_eq_ok, Prod.mk.injEq] at hB
      obtain ⟨s9, _, h1, _⟩ := hB
      rw [← h1]
      exact ⟨by simp, by simp⟩
    simp only [except_pure_eq_ok, Prod.mk.injEq] at hB
    obtain ⟨h1, _⟩ := hB
    rw [← h1]
    exact ⟨by simp, by simp⟩
  by_cases c34 : s.ch = '-' <;> simp only [c34, reduceIte] at hB
  · by_cases c17 : Scanner.peek_char s 1 = '=' <;> simp only [c17, reduceIte] at hB
    · simp only [except_bind_eq_ok, except_pure_eq_ok, Prod.mk.injEq] at hB
      obtain ⟨s9, _, h1, _⟩ := hB
      rw [← h1]
      exact ⟨by simp, by simp⟩
    simp only [except_pure_eq_ok, Prod.mk.injEq] at hB
    obtain ⟨h1, _⟩ := hB
    rw [← h1]
    exact ⟨by simp, by simp⟩
  by_cases c33 : s.ch = '*' <;> simp only [c33, reduceIte] at hB
  · by_cases c18 : Scanner.peek_char s 1 = '=' <;> simp only [c18, reduceIte] at hB
    · simp only [except_bind_eq_ok, except_pure_eq_ok, Prod.mk.injEq] at hB
      obtain ⟨s9, _, h1, _⟩ := hB
      rw [← h1]
      exact ⟨by simp, by simp⟩
    simp only [except_pure_eq_ok, Prod.mk.injEq] at hB
    obtain ⟨h1, _⟩ := hB
    rw [← h1]
    exact ⟨by simp, by simp⟩
  by_cases c32 : s.ch = '/' <;> simp only [c32, reduceIte] at hB
  · by_cases c19 : Scanner.peek_char s 1 = '=' <;> simp only [c19, reduceIte] at hB
    · simp only [except_bind_eq_ok, except_pure_eq_ok, Prod.mk.injEq] at hB
      obtain ⟨s9, _, h1, _⟩ := hB
      rw [← h1]
      exact ⟨by simp, by simp⟩
    simp only [except_pure_eq_ok, Prod.mk.injEq] at hB
    obtain ⟨h1, _⟩ := hB
    rw [← h1]
    exact ⟨by simp, by simp⟩
  by_cases c31 : s.ch = '%' <;> simp only [c31, reduceIte] at hB
  · by_cases c20 : Scanner.peek_char s 1 = '=' <;> simp only [c20, reduceIte] at hB
    · simp only [except_bind_eq_ok, except_pure_eq_ok, Prod.mk.injEq] at hB
      obtain ⟨s9, _, h1, _⟩ := hB
      rw [← h1]
      exact ⟨by simp, by simp⟩
    simp only [except_pure_eq_ok, Prod.mk.injEq] at hB
    obtain ⟨h1, _⟩ := hB
    rw [← h1]
    exact ⟨by simp, by simp⟩
  by_cases c30 : s.ch = '~' <;> simp only [c30, reduceIte] at hB
  · simp only [except_pure_eq_ok, Prod.mk.injEq] at hB
    obtain ⟨h1, _⟩ := hB
    rw [← h1]
    exact ⟨by simp, by simp⟩
  by_cases c29 : s.ch = '(' <;> simp only [c29, reduceIte] at hB
  · simp only [except_pure_eq_ok, Prod.mk.injEq] at hB
    obtain ⟨h1, _⟩ := hB
    rw [← h1]
    exact ⟨by simp, by simp⟩
  by_cases c28 : s.ch = ')' <;> simp only [c28, reduceIte] at hB
  · simp only [except_pure_eq_ok, Prod.mk.injEq] at hB
    obtain ⟨h1, _⟩ := hB
    rw [← h1]
    exact ⟨by simp, by simp⟩
  by_cases c27 : s.ch = '[' <;> simp only [c27, reduceIte] at hB
  · simp only [except_pure_eq_ok, Prod.mk.injEq] at hB
    obtain ⟨h1, _⟩ := hB
    rw [← h1]
    exact ⟨by simp, by simp⟩
  by_cases c26 : s.ch = ']' <;> simp only [c26, reduceIte] at hB
  · simp only [except_pure_eq_ok, Prod.mk.injEq] at hB
    obtain ⟨h1, _⟩ := hB
    rw [← h1]
    exact ⟨by simp, by simp⟩
  by_cases c25 : s.ch = '\x7b' <;> simp only [c25, reduceIte] at hB
  · simp only [except_pure_eq_ok, Prod.mk.injEq] at hB
    obtain ⟨h1, _⟩ := hB
    rw [← h1]
    exact ⟨by simp, by simp⟩
  by_cases c24 : s.ch = '\x7d' <;> simp only [c24, reduceIte] at hB
  · simp only [except_pure_eq_ok, Prod.mk.injEq] at hB
    obtain ⟨h1, _⟩ := hB
    rw [← h1]
    exact ⟨by simp, by simp⟩
  by_cases c23 : s.ch = ',' <;> simp only [c23, reduceIte] at hB
  · simp only [except_pure_eq_ok, Prod.mk.injEq] at hB
    obtain ⟨h1, _⟩ := hB
    rw [← h1]
    exact ⟨by simp, by simp⟩
  by_cases c22 : s.ch = ';' <;> simp only [c22, reduceIte] at hB
  · simp only [except_pure_eq_ok, Prod.mk.injEq] at hB
    obtain ⟨h1, _⟩ := hB
    rw [← h1]
    exact ⟨by simp, by simp⟩
  by_cases c21 : s.ch = '\n' <;> simp only [c21, reduceIte] at hB
  · simp only [except_pure_eq_ok, Prod.mk.injEq] at hB
    obtain ⟨h1, _⟩ := hB
    rw [← h1]
    exact ⟨by simp, by simp⟩
  exact Except.noConfusion hB

/-- Reduction of a bind whose first component is already evaluated. -/
theorem except_ok_bind {α β : Type} {a : α} {k : α → Except Err β} :
    (Except.ok a >>= k) = k a := rfl

/-- Reduction of a bind over pure. -/
theorem except_pure_bind {α β : Type} {a : α} {k : α → Except Err β} :
    ((pure a : Except Err α) >>= k) = k a := rfl

/-- Scanner::whitespace is the identity when the current character already is
EOF_CHAR. -/
theorem Scanner.whitespace_at_eof {s : ScanState} (h : s.ch = eof_char) :
    Scanner.whitespace (Scanner.fuel s) s = .ok s := by
  have hs : Scanner.whitespace (Scanner.fuel s) s =
      Scanner.whitespace_step (Scanner.whitespace (s.input.length + 1)) s := rfl
  rw [hs]
  unfold Scanner.whitespace_step
  simp [h, eof_char]

/-- Scanner::next_token at end of input: it returns the EOF token and leaves
the scanner state untouched, so that further calls repeat the answer. -/
theorem Scanner.next_token_at_eof {s : ScanState} (h : s.ch = eof_char) :
    Scanner.next_token s =
      .ok ({ text := "", token_type := .EOF, value := .IntegerValue 0,
             line_num := s.line_num, line_pos := s.line_pos }, s) := by
  unfold Scanner.next_token
  rw [Scanner.whitespace_at_eof h]
  rw [except_ok_bind]
  simp [Scanner.is_long_comment, h, eof_char, except_pure_bind, Token.new]

/-- A next_token call that returns an EOF-kind token took the end-of-input
branch: the final state has EOF_CHAR as current character and the token is
exactly the EOF token made from that state's position. -/
theorem Scanner.next_token_eof_shape {s : ScanState} {t : Token} {s' : ScanState}
    (h : Scanner.next_token s = .ok (t, s')) (ht : t.token_type = .EOF) :
    s'.ch = eof_char ∧
    t = { text := "", token_type := .EOF, value := .IntegerValue 0,
          line_num := s'.line_num, line_pos := s'.line_pos } := by
  unfold Scanner.next_token at h
  simp only [except_bind_eq_ok] at h
  obtain ⟨s1, _, h⟩ := h
  obtain ⟨s2, _, h⟩ := h
  by_cases he : s2.ch = eof_char <;> simp only [he, reduceIte] at h
  · simp only [Except.ok.injEq, Prod.mk.injEq] at h
    obtain ⟨h1, h2⟩ := h
    subst h2
    constructor
    · exact he
    · rw [← h1]
      rfl
  · by_cases hl : Scanner.is_letter s2 = true <;> simp only [hl, reduceIte] at h
    · exact absurd ht (Scanner.word_token_kind h).1
    by_cases hx : Scanner.is_hex s2 = true <;> simp only [hx, reduceIte] at h
    · rw [Scanner.number_token_hex_kind h] at ht
      exact TokenType.noConfusion ht
    by_cases hd : Scanner.is_digit s2 = true <;> simp only [hd, reduceIte] at h
    · exact absurd ht (Scanner.number_token_kind h).1
    by_cases hq : (s2.ch = '"' || s2.ch = '\'') = true <;>
      simp only [hq, reduceIte] at h
    · rw [(Scanner.string_token_kind h).1] at ht
      exact TokenType.noConfusion ht
    exact absurd ht (Scanner.symbol_token_kind h).1

/-- A next_token call that returns a STRING-kind token went through the
string branch, whose value is the decoded buffer. -/
theorem Scanner.next_token_string_value {s : ScanState} {t : Token} {s' : ScanState}
    (h : Scanner.next_token s = .ok (t, s')) (ht : t.token_type = .STRING) :
    t.value = .StringValue t.text := by
  unfold Scanner.next_token at h
  simp only [except_bind_eq_ok] at h
  obtain ⟨s1, _, h⟩ := h
  obtain ⟨s2, _, h⟩ := h
  by_cases he : s2.ch = eof_char <;> simp only [he, reduceIte] at h
  · simp only [Except.ok.injEq, Prod.mk.injEq] at h
    obtain ⟨h1, _⟩ := h
    rw [← h1] at ht
    exact TokenType.noConfusion ht
  · by_cases hl : Scanner.is_letter s2 = true <;> simp only [hl, reduceIte] at h
    · exact absurd ht (Scanner.word_token_kind h).2
    by_cases hx : Scanner.is_hex s2 = true <;> simp only [hx, reduceIte] at h
    · rw [Scanner.number_token_hex_kind h] at ht
      exact TokenType.noConfusion ht
    by_cases hd : Scanner.is_digit s2 = true <;> simp only [hd, reduceIte] at h
    · exact absurd ht (Scanner.number_token_kind h).2
    by_cases hq : (s2.ch = '"' || s2.ch = '\'') = true <;>
      simp only [hq, reduceIte] at h
    · exact (Scanner.string_token_kind h).2
    exact absurd ht (Scanner.symbol_token_kind h).2

/-- One unfolding step of the parser's fuel recursion. -/
theorem Parser.run_succ (f : Nat) (c : PCall) (p : PState) :
    Parser.run (f + 1) c p = Parser.step (Parser.run f) c p := rfl

/-- Node::add_child only appends to the child list. -/
theorem Node.children_add_child (n c : Node) :
    (n.add_child c).children = n.children ++ [c] := by
  cases n; rfl

/-- Node::new starts with no children. -/
theorem Node.children_new (t : Token) : (Node.new t).children = [] := rfl

/-- Parser::def_statement builds a SUB_LITERAL root when called for an
anonymous literal and a SUB_DECL root otherwise, and always leaves the
parser with the in-subroutine flag cleared (the flag is set to false
unconditionally after the body block, not restored to its previous value). -/
theorem Parser.def_statement_shape {fuel : Nat} {is_literal : Bool} {p : PState}
    {n : Node} {p' : PState}
    (h : Parser.def_statement fuel is_literal p = .ok (n, p')) :
    n.token.token_type =
      (if is_literal then TokenType.SUB_LITERAL else TokenType.SUB_DECL) ∧
    p'.in_subroutine = false := by
  cases fuel with
  | zero => exact Except.noConfusion h
  | succ f =>
    unfold Parser.def_statement at h
    rw [Parser.run_succ] at h
    simp only [Parser.step] at h
    simp only [except_bind_eq_ok] at h
    obtain ⟨p1, _, ⟨node0, p2⟩, hhead, p3, _, ⟨params0, p4⟩, _, p5, _, p6, _,
      ⟨blk, p7⟩, _, hfin⟩ := h
    simp only [Except.ok.injEq, Prod.mk.injEq] at hfin
    obtain ⟨hn, hp⟩ := hfin
    refine ⟨?_, by rw [← hp]⟩
    rw [← hn, Node.token_add_child, Node.token_add_child]
    cases is_literal with
    | true =>
      simp only [Bool.not_true, Bool.false_eq_true, reduceIte,
        except_pure_eq_ok, Prod.mk.injEq] at hhead
      obtain ⟨h1, _⟩ := hhead
      rw [← h1]
      rfl
    | false =>
      simp only [Bool.not_false, reduceIte] at hhead
      by_cases hid : Parser.peek_current p1 ≠ .IDENT
      · rw [if_pos hid] at hhead
        simp [Parser.fail] at hhead
      · rw [if_neg hid] at hhead
        simp only [except_bind_eq_ok, except_pure_eq_ok, Prod.mk.injEq] at hhead
        obtain ⟨pX, _, h1, _⟩ := hhead
        rw [← h1, Node.token_add_child]
        rfl

/-- The elif-collect loop of Parser::if_statement only adds children: the
root token is unchanged. -/
theorem Parser.elif_collect_token : ∀ {f : Nat} {root : Node} {p : PState}
    {r : Node} {p' : PState},
    Parser.run f (.elif_collect root) p = .ok (r, p') → r.token = root.token := by
  intro f
  induction f with
  | zero => intro root p r p' h; exact Except.noConfusion h
  | succ f ih =>
    intro root p r p' h
    rw [Parser.run_succ] at h
    simp only [Parser.step] at h
    by_cases hc : Parser.peek_current p = .ELIF
    · rw [if_pos hc] at h
      simp only [except_bind_eq_ok] at h
      obtain ⟨p1, _, ⟨e, p2⟩, _, ⟨b, p3⟩, _, h⟩ := h
      rw [ih h, Node.token_add_child, Node.token_add_child]
    · rw [if_neg hc] at h
      simp only [Except.ok.injEq, Prod.mk.injEq] at h
      obtain ⟨h1, _⟩ := h
      rw [← h1]

/-- The statement loop of Parser::block only adds children: the block node's
token is unchanged. -/
theorem Parser.block_loop_token : ∀ {f : Nat} {node : Node} {p : PState}
    {r : Node} {p' : PState},
    Parser.run f (.block_loop node) p = .ok (r, p') → r.token = node.token := by
  intro f
  induction f with
  | zero => intro node p r p' h; exact Except.noConfusion h
  | succ f ih =>
    intro node p r p' h
    rw [Parser.run_succ] at h
    simp only [Parser.step] at h
    by_cases hc : (Parser.peek_current p ≠ .RBRACE && Parser.peek_current p ≠ .EOF) = true
    · rw [if_pos hc] at h
      simp only [except_bind_eq_ok] at h
      obtain ⟨⟨st, p1⟩, _, p2, _, h⟩ := h
      rw [ih h, Node.token_add_child]
    · rw [if_neg hc] at h
      simp only [except_bind_eq_ok] at h
      obtain ⟨p1, _, h⟩ := h
      simp only [Except.ok.injEq, Prod.mk.injEq] at h
      obtain ⟨h1, _⟩ := h
      rw [← h1]

/-- Parser::block returns a node whose token is the imaginary BLOCK marker. -/
theorem Parser.block_token {f : Nat} {p : PState} {n : Node} {p' : PState}
    (h : Parser.run f .block p = .ok (n, p')) : n.token.token_type = .BLOCK := by
  cases f with
  | zero => exact Except.noConfusion h
  | succ f =>
    rw [Parser.run_succ] at h
    simp only [Parser.step] at h
    simp only [except_bind_eq_ok] at h
    obtain ⟨p1, _, p2, _, p3, _, h⟩ := h
    rw [Parser.block_loop_token h]
    rfl

/-- Parser::if_statement always stores the synthetic ELIF node as the third
child; an else block, when present, is the fourth and last child. -/
theorem Parser.if_statement_shape {fuel : Nat} {p : PState} {n : Node} {p' : PState}
    (h : Parser.if_statement fuel p = .ok (n, p')) :
    (n.children.map Node.get_type).get? 2 = some .ELIF ∧
    (n.children.length = 3 ∨
      (n.children.length = 4 ∧ (n.children.map Node.get_type).get? 3 = some .BLOCK)) := by
  cases fuel with
  | zero => exact Except.noConfusion h
  | succ f =>
    unfold Parser.if_statement at h
    rw [Parser.run_succ] at h
    simp only [Parser.step] at h
    simp only [except_bind_eq_ok] at h
    obtain ⟨p1, _, ⟨e, p2⟩, _, ⟨b, p3⟩, _, ⟨root0, p4⟩, hroot, h⟩ := h
    have hr2 : root0.token.token_type = .ELIF := by
      rw [Parser.elif_collect_token hroot]
      rfl
    by_cases he : Parser.peek_current p4 = .ELSE
    · rw [if_pos he] at h
      simp only [except_bind_eq_ok] at h
      obtain ⟨p5, _, ⟨eb, p6⟩, heb, h⟩ := h
      have hb := Parser.block_token heb
      simp only [Except.ok.injEq, Prod.mk.injEq] at h
      obtain ⟨h1, _⟩ := h
      rw [← h1]
      simp [Node.children_add_child, Node.children_new, Node.get_type,
        List.get?, hr2, hb]
    · rw [if_neg he] at h
      simp only [Except.ok.injEq, Prod.mk.injEq] at h
      obtain ⟨h1, _⟩ := h
      rw [← h1]
      simp [Node.children_add_child, Node.children_new, Node.get_type,
        List.get?, hr2]

/-- C1: the claim says scanning a hexadecimal literal consumes the whole
lexeme, so that "0x4129" becomes one INTEGER token with text "0x4129" and
value 16681.  The code stops consuming at the first hex digit of value 1
(`while read_hexdigit() != 1` in number_token_hex), so the token actually
returned for "0x4129" has text "0x4" and value 4. -/
theorem c1_hex_scan_stops_at_digit_one :
    (Scanner.next_token (Scanner.new "main" "0x4129".data)).map
        (fun r => (r.1.text, r.1.token_type, r.1.value)) =
      .ok ("0x4", .INTEGER, .IntegerValue 4) ∧
    ("0x4" : String) ≠ "0x4129" := ⟨by rfl, by decide⟩

/-- C9: after Scanner::next_token has returned an end-of-file token, every
further call returns the same end-of-file token again, without an error and
without changing the scanner state. -/
theorem c9_next_token_idempotent_at_eof :
    ∀ (s : ScanState) (t : Token) (s' : ScanState),
      Scanner.next_token s = .ok (t, s') → t.token_type = .EOF →
      Scanner.next_token s' = .ok (t, s') := by
  intro s t s' h ht
  obtain ⟨he, hshape⟩ := Scanner.next_token_eof_shape h ht
  rw [hshape]
  exact Scanner.next_token_at_eof he

/-- C9 witness: scanning the empty program yields EOF, and the theorem
applied to that run gives the repeated EOF answer. -/
theorem c9_witness : Scanner.next_token c9_scan.2 = .ok (c9_scan.1, c9_scan.2) :=
  c9_next_token_idempotent_at_eof (Scanner.new "main" []) c9_scan.1 c9_scan.2
    (by rfl) (by rfl)

/-- C6 counterexample: the claim says a string-literal token's text equals
the exact source text of the literal; scanning the four-character source
`'ab'` yields a token whose text is the two-character decoded content "ab",
not the source text "'ab'". -/
theorem c6_counterexample :
    (Scanner.next_token (Scanner.new "main" "'ab'".data)).map (fun r => r.1.text) =
      .ok "ab" ∧
    ("ab" : String) ≠ "'ab'" := ⟨by rfl, by decide⟩

/-- C6 amended: each token carries the line/column of its first character;
a string-literal token's text (and value) is the decoded string content —
escapes expanded, delimiters excluded — not the exact source text. -/
theorem c6_string_token_decoded :
    (∀ (s : ScanState) (t : Token) (s' : ScanState),
        Scanner.next_token s = .ok (t, s') → t.token_type = .STRING →
        t.value = .StringValue t.text) ∧
    (Scanner.next_token (Scanner.new "main" "'ab'".data)).map
        (fun r => (r.1.text, r.1.token_type, r.1.line_num, r.1.line_pos)) =
      .ok ("ab", .STRING, 1, 1) ∧
    (Scanner.next_token (Scanner.new "main" "\"a\\nb\"".data)).map
        (fun r => (r.1.text, r.1.value)) = .ok ("a\nb", .StringValue "a\nb") :=
  ⟨fun _ _ _ h ht => Scanner.next_token_string_value h ht, by rfl, by rfl⟩

/-- C6 witness: the universal part applied to the scan of `'ab'`. -/
theorem c6_witness : c6_scan.1.value = .StringValue c6_scan.1.text :=
  c6_string_token_decoded.1 (Scanner.new "main" "'ab'".data) c6_scan.1 c6_scan.2
    (by rfl) (by rfl)

/-- C2 counterexample: the claim says `def` at statement position inside a
block (followed by a token other than `(`) builds a SUB_DECL node; in fact
only Parser::program performs the two-token dispatch, Parser::block does
not, so a named `def f() {...}` inside a `while` block reaches the
anonymous-literal path of Parser::atom and aborts with a fatal error. -/
theorem c2_counterexample :
    parse_program "main" "while x \x7b\ndef f() \x7b\n\x7d\n\x7d\n" =
      .error (.fatal
        "main:2:5: unexpected literal near 'f', expected '(' to open parameter list") := by
  rfl

/-- C2 amended: `def` at TOP-LEVEL statement position with next token not
`(` builds a SUB_DECL declaration; `def` anywhere else — including `def`
followed by `(` and `def` at statement position inside a block — parses as
an anonymous SUB_LITERAL at expression-atom position, so a named `def`
inside a block is a fatal parse error. -/
theorem c2_def_dispatch :
    (∀ (fuel : Nat) (is_literal : Bool) (p : PState) (n : Node) (p' : PState),
        Parser.def_statement fuel is_literal p = .ok (n, p') →
        n.token.token_type =
          (if is_literal then TokenType.SUB_LITERAL else TokenType.SUB_DECL)) ∧
    parse_tree "main" "def f() \x7b\n\x7d\n" =
      .ok "(BLOCK (SUB_DECL f SUB_PARAMS BLOCK))" ∧
    parse_tree "main" "def (x) \x7b\nreturn x\n\x7d\n" =
      .ok "(BLOCK (SUB_LITERAL (SUB_PARAMS x) (BLOCK (return x))))" ∧
    parse_program "main" "while x \x7b\ndef f() \x7b\n\x7d\n\x7d\n" =
      .error (.fatal
        "main:2:5: unexpected literal near 'f', expected '(' to open parameter list") :=
  ⟨fun _ _ _ _ _ h => (Parser.def_statement_shape h).1, by rfl, by rfl, by rfl⟩

/-- C2 witness: the named-subroutine parse of `def f() {\n}\n` has a
SUB_DECL root. -/
theorem c2_witness : c2_run.1.token.token_type = .SUB_DECL :=
  c2_def_dispatch.1 400 false c2_pstate c2_run.1 c2_run.2 (by rfl)

/-- C3 counterexample: the claim says a `return` inside a subroutine body
succeeds even when the body lexically contains another subroutine literal
before it; in fact Parser::def_statement clears the in-subroutine flag
unconditionally when the nested literal's body ends, so the following
`return` aborts with the 'return' outside subroutine error. -/
theorem c3_counterexample :
    parse_program "main" "def f() \x7b\ng = def () \x7b\n\x7d\nreturn 1\n\x7d\n" =
      .error (.fatal
        "main:4:1: unexpected symbol near 'return', 'return' outside subroutine") := by
  rfl

/-- C3 amended: parsing `return` fails with a fatal error exactly when the
in-subroutine flag is unset at the `return`: every top-level `return`
fails; a `return` inside a subroutine body with no earlier completed nested
subroutine succeeds, with or without a trailing expression; but any nested
subroutine (literal or declaration) clears the flag when its body ends
instead of restoring it, so a `return` after a nested subroutine literal in
the same body fails. -/
theorem c3_return_outside_subroutine :
    (∀ (rec : PCall → PState → Except Err (Node × PState)) (p : PState),
        p.in_subroutine = false →
        Parser.step rec .return_statement p =
          Parser.fail p "'return' outside subroutine") ∧
    (∀ (fuel : Nat) (is_literal : Bool) (p : PState) (n : Node) (p' : PState),
        Parser.def_statement fuel is_literal p = .ok (n, p') →
        p'.in_subroutine = false) ∧
    parse_program "main" "return\n" =
      .error (.fatal
        "main:1:1: unexpected symbol near 'return', 'return' outside subroutine") ∧
    parse_tree "main" "def f() \x7b\nreturn 1\n\x7d\n" =
      .ok "(BLOCK (SUB_DECL f SUB_PARAMS (BLOCK (return 1))))" ∧
    parse_tree "main" "def f() \x7b\nreturn\n\x7d\n" =
      .ok "(BLOCK (SUB_DECL f SUB_PARAMS (BLOCK return)))" ∧
    parse_program "main" "def f() \x7b\ng = def () \x7b\n\x7d\nreturn 1\n\x7d\n" =
      .error (.fatal
        "main:4:1: unexpected symbol near 'return', 'return' outside subroutine") :=
  ⟨fun rec p h => by simp [Parser.step, h],
   fun _ _ _ _ _ h => (Parser.def_statement_shape h).2,
   by rfl, by rfl, by rfl, by rfl⟩

/-- C3 witness: the flag-check applied to a concrete top-level state whose
current token is `return`. -/
theorem c3_witness :
    Parser.step c3_rec .return_statement c3_pstate =
      Parser.fail c3_pstate "'return' outside subroutine" :=
  c3_return_outside_subroutine.1 c3_rec c3_pstate rfl

/-- C4 counterexample: the claim says a trailing comma after the last
`key => value` element of a hash literal is allowed; in fact after the
comma the parser starts a new HASH_ELEM and its key expression finds `}`
where an expression atom was required, a fatal error. -/
theorem c4_counterexample :
    parse_program "main" "\x7b1 => 2,\x7d\n" =
      .error (.fatal "main:1:9: unexpected symbol near '\x7d', expected expression") := by
  rfl

/-- C4 amended: the empty hash literal `{}` parses into a HASH_DECL node
with no children, and a hash literal without a trailing comma parses, but a
trailing comma after the last `key => value` element is a fatal
expected-expression error. -/
theorem c4_hash_literal :
    (parse_program "main" "\x7b\x7d\n").map
        (fun root => root.children.map (fun c => (c.get_type, c.children.length))) =
      .ok [(.HASH_DECL, 0)] ∧
    parse_tree "main" "\x7b1 => 2\x7d\n" = .ok "(BLOCK (HASH_DECL (HASH_ELEM 1 2)))" ∧
    parse_program "main" "\x7b1 => 2,\x7d\n" =
      .error (.fatal "main:1:9: unexpected symbol near '\x7d', expected expression") :=
  ⟨by rfl, by rfl, by rfl⟩

/-- C5 counterexample: the claim says every reserved word, including
`return`, yields the keyword prefix; in fact Parser::error tests the
ordinal range DEF..IMPORT, which excludes DEBUG and RETURN, so a `return`
token gets the symbol prefix. -/
theorem c5_counterexample :
    Parser.error_label c5_return_tok = "unexpected symbol near 'return', " ∧
    Parser.error_label c5_return_tok ≠ "unexpected keyword near 'return', " :=
  ⟨by rfl, by decide⟩

/-- C5 amended: the categorized prefix is chosen by the offending token's
kind: newline and end-of-file get their fixed prefixes, the literal band
STRING..IDENT gets the literal prefix, the keyword band covers only
DEF..IMPORT — DEBUG and RETURN fall through to the symbol prefix — and all
remaining kinds get the symbol prefix. -/
theorem c5_error_label_bands : ∀ (tok : Token),
    (tok.token_type = .NEWLINE →
      Parser.error_label tok = "unexpected newline, ") ∧
    (tok.token_type = .EOF →
      Parser.error_label tok = "unexpected end-of-file, ") ∧
    (tok.token_type ∈ [TokenType.STRING, .INTEGER, .FLOAT, .TRUE, .FALSE,
        .NIL, .IDENT] →
      Parser.error_label tok = "unexpected literal near '" ++ tok.text ++ "', ") ∧
    (tok.token_type ∈ [TokenType.DEF, .IF, .ELIF, .ELSE, .FOR, .WHILE,
        .UNTIL, .IN, .IMPORT] →
      Parser.error_label tok = "unexpected keyword near '" ++ tok.text ++ "', ") ∧
    (tok.token_type ∈ [TokenType.DEBUG, .RETURN] →
      Parser.error_label tok = "unexpected symbol near '" ++ tok.text ++ "', ") ∧
    (tok.token_type ∉ [TokenType.STRING, .INTEGER, .FLOAT, .TRUE, .FALSE,
        .NIL, .IDENT, .DEF, .IF, .ELIF, .ELSE, .FOR, .WHILE, .UNTIL, .IN,
        .IMPORT, .NEWLINE, .EOF] →
      Parser.error_label tok = "unexpected symbol near '" ++ tok.text ++ "', ") := by
  intro tok
  obtain ⟨text, tt, v, ln, lp⟩ := tok
  cases tt <;>
    refine ⟨fun h => ?_, fun h => ?_, fun h => ?_, fun h => ?_, fun h => ?_,
      fun h => ?_⟩ <;>
    first
      | rfl
      | (simp at h)

/-- C5 witness: a `def` token falls in the keyword band. -/
theorem c5_witness :
    Parser.error_label c5_def_tok = "unexpected keyword near 'def', " :=
  (c5_error_label_bands c5_def_tok).2.2.2.1 (by decide)

/-- C7: an assignment whose left-hand operand is an identifier or a
subscript is accepted ("a = b[0]" parses), and any other left-hand operand
makes Parser::assignment_expr abort with the invalid-assignment-target
fatal error ("1 = 2" fails). -/
theorem c7_assignment_target :
    (∀ (rec : PCall → PState → Except Err (Node × PState)) (p p₁ : PState)
        (left : Node),
        rec .range_expr p = .ok (left, p₁) →
        Parser.peek_current p₁ = .ASSIGN →
        left.get_type ≠ .SUBSCRIPT → left.get_type ≠ .IDENT →
        Parser.step rec .assignment_expr p = Parser.fail p₁ "") ∧
    parse_tree "main" "a = b[0]" = .ok "(BLOCK (= a (SUBSCRIPT b 0)))" ∧
    parse_program "main" "1 = 2" =
      .error (.fatal "main:1:3: unexpected symbol near '=', ") := by
  refine ⟨?_, by rfl, by rfl⟩
  intro rec p p₁ left h ha h1 h2
  simp only [Parser.step]
  rw [h, except_ok_bind]
  rw [if_pos ha]
  rcases hgt : left.get_type
  all_goals first
    | exact absurd hgt h1
    | exact absurd hgt h2
    | rfl

/-- C7 witness: the invalid-target error at the concrete left operand `1`
with `=` as the current token. -/
theorem c7_witness :
    Parser.step c7_rec .assignment_expr c7_state = Parser.fail c7_state "" :=
  c7_assignment_target.1 c7_rec c7_state c7_state c7_left rfl rfl
    (by decide) (by decide)

/-- C8: parsing "1 + 2 * 3" yields the tree (+ 1 (* 2 3)) under the program
BLOCK: multiplicative operators bind tighter than additive ones, and the
already-parsed left operand is re-rooted under the operator node, which
also makes same-level chains left-associative ("1 - 2 + 3" becomes
(+ (- 1 2) 3)). -/
theorem c8_precedence :
    parse_tree "main" "1 + 2 * 3" = .ok "(BLOCK (+ 1 (* 2 3)))" ∧
    (parse_program "main" "1 + 2 * 3").map
        (fun root => root.children.map (fun c =>
          (c.get_type, c.children.map (fun d =>
            (d.get_type, d.get_value, d.children.map (fun e =>
              (e.get_type, e.get_value))))))) =
      .ok [(.PLUS,
            [(.INTEGER, .IntegerValue 1, []),
             (.MUL, .IntegerValue 0,
              [(.INTEGER, .IntegerValue 2), (.INTEGER, .IntegerValue 3)])])] ∧
    parse_tree "main" "1 - 2 + 3" = .ok "(BLOCK (+ (- 1 2) 3))" :=
  ⟨by rfl, by rfl, by rfl⟩

/-- C10: every node built by Parser::if_statement has the synthetic ELIF
node as its third child — with zero children when the source has no elif
clause — and an else block, when present, is appended as the fourth
child. -/
theorem c10_if_statement_children :
    (∀ (fuel : Nat) (p : PState) (n : Node) (p' : PState),
        Parser.if_statement fuel p = .ok (n, p') →
        (n.children.map Node.get_type).get? 2 = some .ELIF ∧
        (n.children.length = 3 ∨
          (n.children.length = 4 ∧
            (n.children.map Node.get_type).get? 3 = some .BLOCK))) ∧
    (parse_program "main" "if a \x7b\n\x7d\n").map
        (fun root => root.children.map (fun st =>
          st.children.map (fun c => (c.get_type, c.children.length)))) =
      .ok [[(.IDENT, 0), (.BLOCK, 0), (.ELIF, 0)]] ∧
    parse_tree "main" "if a \x7b\n\x7d else \x7b\n\x7d\n" =
      .ok "(BLOCK (if a BLOCK ELIF BLOCK))" ∧
    parse_tree "main" "if a \x7b\n\x7d elif b \x7b\n\x7d else \x7b\n\x7d\n" =
      .ok "(BLOCK (if a BLOCK (ELIF b BLOCK) BLOCK))" :=
  ⟨fun _ _ _ _ h => Parser.if_statement_shape h, by rfl, by rfl, by rfl⟩

/-- C10 witness: the shape facts applied to the if-statement parse of
`if a {\n}\n`. -/
theorem c10_witness :
    (c10_run.1.children.map Node.get_type).get? 2 = some .ELIF ∧
    (c10_run.1.children.length = 3 ∨
      (c10_run.1.children.length = 4 ∧
        (c10_run.1.children.map Node.get_type).get? 3 = some .BLOCK)) :=
  c10_if_statement_children.1 400 c10_pstate c10_run.1 c10_run.2 (by rfl)
